import Mathlib

/-!
# Billiards: physics and turn-state engine

A shallow embedding of `Billiards.h` and `game.cpp`.

* The C++ `double` is a type parameter `K` carrying the operations of a linear
  ordered field.  The two `<cmath>` calls of the program, `sqrt` and `pow`, are
  explicit function parameters of every definition whose source calls them.
* Theorems are stated over exact arithmetic: `K := ℝ`, `sqrt := Real.sqrt`,
  `pow := Real.rpow`.  Statements that do not depend on the arithmetic at all
  are stated for every `K`, `sqrt` and `pow`.
* Global variables of `game.cpp` are the fields of `Game`; a function that
  mutates them is a function `Game → Game`.
* `std::vector<Ball>` is `List (Ball K)`; a member function that mutates its
  receiver (and its by-reference argument) returns the new values.
-/

namespace Billiards

/-! ## Constants of `Billiards.h` and `game.cpp` -/

/-- Table width, `const int TABLE_WIDTH`. -/
def TABLE_WIDTH : Int := 800
/-- Table height, `const int TABLE_HEIGHT`. -/
def TABLE_HEIGHT : Int := 600
/-- Ball radius, `const int BALL_RADIUS`. -/
def BALL_RADIUS : Int := 12
/-- Cushion width, `const int CUSHION_WIDTH`. -/
def CUSHION_WIDTH : Int := 30
/-- Pocket radius, `const int POCKET_RADIUS`. -/
def POCKET_RADIUS : Int := 25
/-- Pocket inset, `const int POCKET_INSET`. -/
def POCKET_INSET : Int := 8

section Defs

variable {K : Type} [LinearOrderedField K]

/-- Elasticity coefficient, `const double ELASTICITY`. -/
def ELASTICITY (K : Type) [LinearOrderedField K] : K := 0.85
/-- Friction coefficient, `const double FRICTION`. -/
def FRICTION (K : Type) [LinearOrderedField K] : K := 0.98
/-- Minimum closing speed of a collision, `const double MIN_COLLISION_SPEED`. -/
def MIN_COLLISION_SPEED (K : Type) [LinearOrderedField K] : K := 0.1
/-- Maximum cue-ball speed, `const double MAX_CUE_SPEED` of `game.cpp`. -/
def MAX_CUE_SPEED (K : Type) [LinearOrderedField K] : K := 5000.0
/-- Shot multiplier, `const double SHOT_MULTIPLIER` of `game.cpp`. -/
def SHOT_MULTIPLIER (K : Type) [LinearOrderedField K] : K := 200.0

/-! ## Vector2D -/

/-- The struct `Vector2D`. -/
structure Vector2D (K : Type) where
  x : K
  y : K

namespace Vector2D

/-- The `operator+` of `Vector2D`. -/
def add (a b : Vector2D K) : Vector2D K := ⟨a.x + b.x, a.y + b.y⟩

/-- The `operator-` of `Vector2D`. -/
def sub (a b : Vector2D K) : Vector2D K := ⟨a.x - b.x, a.y - b.y⟩

/-- The `operator*` of `Vector2D` (vector times scalar). -/
def mul (a : Vector2D K) (scalar : K) : Vector2D K := ⟨a.x * scalar, a.y * scalar⟩

/-- The member `length`: `sqrt(x * x + y * y)`. -/
def length (sqrt : K → K) (a : Vector2D K) : K := sqrt (a.x * a.x + a.y * a.y)

/-- The member `normalize`: divides by the length only when it exceeds `0.1`. -/
def normalize (sqrt : K → K) (a : Vector2D K) : Vector2D K :=
  let len := a.length sqrt
  if len > 0.1 then ⟨a.x / len, a.y / len⟩ else ⟨0, 0⟩

/-- The member `dot`. -/
def dot (a b : Vector2D K) : K := a.x * b.x + a.y * b.y

/-- The member `perpendicular`. -/
def perpendicular (a : Vector2D K) : Vector2D K := ⟨-a.y, a.x⟩

end Vector2D

/-! ## Table geometry -/

/-- The six centres written by `computePocketCenters`, in index order. -/
def computePocketCenters (K : Type) [LinearOrderedField K] : List (Vector2D K) :=
  let hx : K := (CUSHION_WIDTH : K) / 2.0
  let hy : K := (CUSHION_WIDTH : K) / 2.0
  [ ⟨hx + (POCKET_INSET : K), hy + (POCKET_INSET : K)⟩,
    ⟨(TABLE_WIDTH : K) - hx - (POCKET_INSET : K), hy + (POCKET_INSET : K)⟩,
    ⟨(TABLE_WIDTH : K) / 2.0, hy + (POCKET_INSET : K)⟩,
    ⟨hx + (POCKET_INSET : K), (TABLE_HEIGHT : K) - hy - (POCKET_INSET : K)⟩,
    ⟨(TABLE_WIDTH : K) - hx - (POCKET_INSET : K), (TABLE_HEIGHT : K) - hy - (POCKET_INSET : K)⟩,
    ⟨(TABLE_WIDTH : K) / 2.0, (TABLE_HEIGHT : K) - hy - (POCKET_INSET : K)⟩ ]

/-- The helper `isOverPocketArea`: the loop returns `true` at the first centre
closer than `POCKET_RADIUS + BALL_RADIUS * 0.5`. -/
def isOverPocketArea (sqrt : K → K) (pos : Vector2D K) : Bool :=
  let detectRadius : K := (POCKET_RADIUS : K) + (BALL_RADIUS : K) * 0.5
  (computePocketCenters K).any fun c => decide ((pos.sub c).length sqrt < detectRadius)

/-! ## Balls -/

/-- The enum `BallType`. -/
inductive BallType where
  | SOLID
  | STRIPED
  | CUE
  | EIGHT
deriving DecidableEq, Repr

/-- The enum `GameState`. -/
inductive GameState where
  | BREAK
  | ASSIGNMENT
  | PLAYER1_TURN
  | PLAYER2_TURN
  | FOUL_STATE
  | PLAYER1_WIN
  | PLAYER2_WIN
deriving DecidableEq, Repr

/-- The class `Ball`; a `COLORREF` is a natural number. -/
structure Ball (K : Type) where
  position : Vector2D K
  velocity : Vector2D K
  baseColor : Nat
  stripeColor : Nat
  number : Int
  type : BallType
  isPocketed : Bool
  rotation : K
  pocketPosition : Vector2D K
  pocketTimer : K
  toRemove : Bool

namespace Ball

/-- The constructor `Ball(x, y, number, type, color, stripeColor)`. -/
def new (x y : K) (number : Int) (type : BallType) (color : Nat) (stripeColor : Nat) :
    Ball K :=
  { position := ⟨x, y⟩
    velocity := ⟨0, 0⟩
    baseColor := color
    stripeColor := stripeColor
    number := number
    type := type
    isPocketed := false
    rotation := 0.0
    pocketPosition := ⟨0, 0⟩
    pocketTimer := 0.0
    toRemove := false }

/-- The member `Ball::update(deltaTime)`. -/
def update (sqrt : K → K) (pow : K → K → K) (deltaTime : K) (b : Ball K) : Ball K :=
  if b.isPocketed then
    let pocketTimer := b.pocketTimer + deltaTime
    let duration : K := 0.4
    let t := pocketTimer / duration
    let t := if t > 1.0 then 1.0 else t
    let px := b.position.x * (1.0 - t) + b.pocketPosition.x * t
    let py := b.position.y * (1.0 - t) + b.pocketPosition.y * t
    let b1 : Ball K := { b with pocketTimer := pocketTimer, position := ⟨px, py⟩ }
    if pocketTimer ≥ duration then { b1 with toRemove := true } else b1
  else
    let damping := pow (FRICTION K) (deltaTime * 60.0)
    let velocity := b.velocity.mul damping
    let velocity := if velocity.length sqrt < 0.1 then (⟨0, 0⟩ : Vector2D K) else velocity
    let position := b.position.add (velocity.mul deltaTime)
    let px := if position.x < 0 then 0 else position.x
    let py := if position.y < 0 then 0 else position.y
    let px := if px > (TABLE_WIDTH : K) then (TABLE_WIDTH : K) else px
    let py := if py > (TABLE_HEIGHT : K) then (TABLE_HEIGHT : K) else py
    { b with velocity := velocity, position := ⟨px, py⟩ }

/-- The member `Ball::checkCollision(other)`: the returned flag, the new
receiver and the new `other`. -/
def checkCollision (sqrt : K → K) (b other : Ball K) : Bool × Ball K × Ball K :=
  if b.isPocketed || other.isPocketed then (false, b, other)
  else
    let distVec := b.position.sub other.position
    let distance := distVec.length sqrt
    if distance < 2.1 * (BALL_RADIUS : K) ∧ distance > 0 then
      let normal := distVec.normalize sqrt
      let relativeVel := b.velocity.sub other.velocity
      let velAlongNormal := relativeVel.dot normal
      if velAlongNormal ≥ 0 then (false, b, other)
      else if |velAlongNormal| < MIN_COLLISION_SPEED K then (false, b, other)
      else
        let impulseMagnitude := -(1 + ELASTICITY K) * velAlongNormal
        let invMass1 : K := 1.0
        let invMass2 : K := 1.0
        let impulseMagnitude := impulseMagnitude / (invMass1 + invMass2)
        let impulse := normal.mul impulseMagnitude
        let v1 := b.velocity.add (impulse.mul invMass1)
        let v2 := other.velocity.sub (impulse.mul invMass2)
        let overlap := 2 * (BALL_RADIUS : K) - distance
        if overlap > 0 then
          let correction := (normal.mul overlap).mul 0.5
          (true, { b with velocity := v1, position := b.position.add correction },
            { other with velocity := v2, position := other.position.sub correction })
        else
          (true, { b with velocity := v1 }, { other with velocity := v2 })
    else (false, b, other)

/-- The member `Ball::checkBoundaryCollision()`. -/
def checkBoundaryCollision (sqrt : K → K) (b : Ball K) : Ball K :=
  if b.isPocketed then b
  else if isOverPocketArea sqrt b.position then b
  else
    let bx : Ball K :=
      if b.position.x - (BALL_RADIUS : K) < (CUSHION_WIDTH : K) then
        { b with
          position := ⟨((CUSHION_WIDTH + BALL_RADIUS : Int) : K), b.position.y⟩
          velocity := ⟨-b.velocity.x * ELASTICITY K, b.velocity.y⟩ }
      else if b.position.x + (BALL_RADIUS : K) > ((TABLE_WIDTH - CUSHION_WIDTH : Int) : K) then
        { b with
          position := ⟨((TABLE_WIDTH - CUSHION_WIDTH - BALL_RADIUS : Int) : K), b.position.y⟩
          velocity := ⟨-b.velocity.x * ELASTICITY K, b.velocity.y⟩ }
      else b
    if bx.position.y - (BALL_RADIUS : K) < (CUSHION_WIDTH : K) then
      { bx with
        position := ⟨bx.position.x, ((CUSHION_WIDTH + BALL_RADIUS : Int) : K)⟩
        velocity := ⟨bx.velocity.x, -bx.velocity.y * ELASTICITY K⟩ }
    else if bx.position.y + (BALL_RADIUS : K) > ((TABLE_HEIGHT - CUSHION_WIDTH : Int) : K) then
      { bx with
        position := ⟨bx.position.x, ((TABLE_HEIGHT - CUSHION_WIDTH - BALL_RADIUS : Int) : K)⟩
        velocity := ⟨bx.velocity.x, -bx.velocity.y * ELASTICITY K⟩ }
    else bx

end Ball

/-! ## Pockets -/

/-- The class `Pocket`. -/
structure Pocket (K : Type) where
  position : Vector2D K
  radius : K

namespace Pocket

/-- The constructor `Pocket(x, y, radius)`. -/
def new (x y radius : K) : Pocket K := { position := ⟨x, y⟩, radius := radius }

/-- The member `Pocket::checkPocket(ball)`: the returned flag and the new ball. -/
def checkPocket (sqrt : K → K) (p : Pocket K) (ball : Ball K) : Bool × Ball K :=
  if ball.isPocketed then (false, ball)
  else
    let distVec := ball.position.sub p.position
    let distance := distVec.length sqrt
    if distance < p.radius then
      (true, { ball with
                isPocketed := true
                velocity := ⟨0, 0⟩
                pocketPosition := p.position
                pocketTimer := 0.0 })
    else (false, ball)

end Pocket

/-! ## Global state of `game.cpp` -/

/-- The struct `Player`. -/
structure Player where
  isCurrentPlayer : Bool
  assignedType : Int
  ballsLeft : Int
deriving DecidableEq, Repr

/-- The global variables of `game.cpp` the simulation reads and writes. -/
structure Game (K : Type) where
  player1 : Player
  player2 : Player
  gameState : GameState
  balls : List (Ball K)
  pockets : List (Pocket K)
  message : String
  aiming : Bool
  aimDirection : Vector2D K
  shotPower : K
  gamePaused : Bool
  shotInProgress : Bool
  pocketOccurredThisShot : Bool

/-- The colour macro `RGB(r, g, b)` of the graphics library. -/
def RGB (r g b : Nat) : Nat := r + g * 256 + b * 65536

/-- The colour constant `WHITE` of the graphics library. -/
def WHITE : Nat := 0xFFFFFF

/-- The vector `baseColors` of `initBalls` after both of its fill loops. -/
def baseColors : List Nat :=
  let solids : List Nat :=
    [RGB 255 255 0, RGB 0 0 255, RGB 255 0 0, RGB 128 0 128, RGB 255 165 0, RGB 0 128 0,
      RGB 165 42 42]
  0 :: solids ++ [RGB 0 0 0] ++ solids

/-- The vector `stripeColors` of `initBalls` after its fill loop. -/
def stripeColors : List Nat :=
  List.replicate 9 0 ++ List.replicate 7 WHITE

/-- The freshly constructed cue ball, `Ball(cueX, cueY, 0, CUE, WHITE)` with
`cueX = CUSHION_WIDTH + BALL_RADIUS + 40` and `cueY = TABLE_HEIGHT / 2.0`. -/
def cueBall (K : Type) [LinearOrderedField K] : Ball K :=
  let cueX : K := ((CUSHION_WIDTH + BALL_RADIUS + 40 : Int) : K)
  let cueY : K := (TABLE_HEIGHT : K) / 2.0
  Ball.new cueX cueY 0 BallType.CUE WHITE 0

/-- The inner loop `for (c = 0; c <= r; ++c)` of `initBalls`, over the values
of `c` still to visit; the state is `number` and the vector `balls`. -/
def initBallsRow (triangleBaseX triangleStartY spacing : K) (rows r : Int) :
    List Nat → Int × List (Ball K) → Int × List (Ball K)
  | [], s => s
  | c :: cs, (number, balls) =>
    if number > 15 then (number, balls)
    else
      let x := triangleBaseX + (r : K) * spacing * 0.92
      let y := triangleStartY + (c : K) * spacing + (spacing * ((rows - 1 - r : Int) : K) / 2.0)
      let type :=
        if number = 8 then BallType.EIGHT
        else if number ≤ 7 then BallType.SOLID else BallType.STRIPED
      let stripe := stripeColors.getD number.toNat 0
      let base := baseColors.getD number.toNat 0
      initBallsRow triangleBaseX triangleStartY spacing rows r cs
        (number + 1, balls ++ [Ball.new x y number type base stripe])

/-- The outer loop `for (r = 0; r < rows; ++r)` of `initBalls`. -/
def initBallsRows (triangleBaseX triangleStartY spacing : K) (rows : Int) :
    List Nat → Int × List (Ball K) → Int × List (Ball K)
  | [], s => s
  | r :: rs, s =>
    initBallsRows triangleBaseX triangleStartY spacing rows rs
      (initBallsRow triangleBaseX triangleStartY spacing rows r (List.range (r + 1)) s)

/-- The function `initBalls`: the new value of the global `balls`. -/
def initBalls (K : Type) [LinearOrderedField K] : List (Ball K) :=
  let rows : Nat := 5
  let spacing : K := ((BALL_RADIUS * 2 + 2 : Int) : K)
  let triangleBaseX : K :=
    ((TABLE_WIDTH - CUSHION_WIDTH - BALL_RADIUS : Int) : K) - ((rows - 1 : Int) : K) * spacing * 0.92
  let triangleStartY : K := (TABLE_HEIGHT : K) / 2.0 - spacing * ((rows - 1 : Int) : K) / 2.0
  (initBallsRows triangleBaseX triangleStartY spacing rows (List.range rows)
    (1, [cueBall K])).2

/-- The function `initPockets`: the new value of the global `pockets`. -/
def initPockets (K : Type) [LinearOrderedField K] : List (Pocket K) :=
  let hx : K := (CUSHION_WIDTH : K) / 2.0
  let hy : K := (CUSHION_WIDTH : K) / 2.0
  [ Pocket.new hx hy (POCKET_RADIUS : K),
    Pocket.new ((TABLE_WIDTH : K) - hx) hy (POCKET_RADIUS : K),
    Pocket.new ((TABLE_WIDTH : K) / 2.0) hy (POCKET_RADIUS : K),
    Pocket.new hx ((TABLE_HEIGHT : K) - hy) (POCKET_RADIUS : K),
    Pocket.new ((TABLE_WIDTH : K) - hx) ((TABLE_HEIGHT : K) - hy) (POCKET_RADIUS : K),
    Pocket.new ((TABLE_WIDTH : K) / 2.0) ((TABLE_HEIGHT : K) - hy) (POCKET_RADIUS : K) ]

/-- The function `initGame`, from the values the aim direction had before. -/
def initGame (aimDirection : Vector2D K) : Game K :=
  { player1 := { isCurrentPlayer := true, assignedType := 0, ballsLeft := 7 }
    player2 := { isCurrentPlayer := false, assignedType := 0, ballsLeft := 7 }
    gameState := GameState.PLAYER1_TURN
    pockets := initPockets K
    balls := initBalls K
    aiming := false
    aimDirection := aimDirection
    shotPower := 0
    gamePaused := false
    shotInProgress := false
    pocketOccurredThisShot := false
    message := "" }

/-! ## The simulation step -/

/-- The loop over `pockets` inside `updateBalls` for one ball: the state is the
ball and the global `pocketOccurredThisShot`. -/
def pocketLoop (sqrt : K → K) (shotInProgress : Bool) :
    List (Pocket K) → Ball K × Bool → Ball K × Bool
  | [], s => s
  | p :: ps, (ball, occurred) =>
    if !ball.isPocketed then
      let r := p.checkPocket sqrt ball
      if r.1 then
        pocketLoop sqrt shotInProgress ps (r.2, if shotInProgress then true else occurred)
      else pocketLoop sqrt shotInProgress ps (r.2, occurred)
    else pocketLoop sqrt shotInProgress ps (ball, occurred)

/-- The first loop of `updateBalls` over `balls`: capture tests, `update` and
`checkBoundaryCollision` for every ball in turn. -/
def ballLoop (sqrt : K → K) (pow : K → K → K) (deltaTime : K) (pockets : List (Pocket K))
    (shotInProgress : Bool) : List (Ball K) → Bool → List (Ball K) × Bool
  | [], occurred => ([], occurred)
  | ball :: rest, occurred =>
    let s := pocketLoop sqrt shotInProgress pockets (ball, occurred)
    let ball2 := (s.1.update sqrt pow deltaTime).checkBoundaryCollision sqrt
    let r := ballLoop sqrt pow deltaTime pockets shotInProgress rest s.2
    (ball2 :: r.1, r.2)

/-- The rebuild of the vector in `updateBalls`: `cueRespawn`, `newBalls`, the
first insertion, `hasCue` and the second insertion. -/
def rebuild (balls : List (Ball K)) : List (Ball K) :=
  let cueRespawn := balls.any fun b => b.toRemove && decide (b.number = 0)
  let newBalls := balls.filter fun b => !b.toRemove
  let newBalls := if cueRespawn then cueBall K :: newBalls else newBalls
  let hasCue := newBalls.any fun b => decide (b.number = 0)
  if !hasCue then cueBall K :: newBalls else newBalls

/-- The loop computing `anyMovingOrAnimating` in `updateBalls`. -/
def anyMovingOrAnimating (sqrt : K → K) : List (Ball K) → Bool
  | [] => false
  | b :: bs =>
    if b.velocity.length sqrt > 0.1 then true
    else if b.isPocketed && !b.toRemove then true
    else anyMovingOrAnimating sqrt bs

/-- The function `updateBalls(deltaTime)`. -/
def updateBalls (sqrt : K → K) (pow : K → K → K) (deltaTime : K) (g : Game K) : Game K :=
  let s := ballLoop sqrt pow deltaTime g.pockets g.shotInProgress g.balls g.pocketOccurredThisShot
  let g1 : Game K := { g with balls := rebuild s.1, pocketOccurredThisShot := s.2 }
  if g1.shotInProgress then
    if !anyMovingOrAnimating sqrt g1.balls then
      let g2 : Game K :=
        if !g1.pocketOccurredThisShot then
          if g1.gameState = GameState.PLAYER1_TURN then
            { g1 with
              gameState := GameState.PLAYER2_TURN
              player1 := { g1.player1 with isCurrentPlayer := false }
              player2 := { g1.player2 with isCurrentPlayer := true } }
          else if g1.gameState = GameState.PLAYER2_TURN then
            { g1 with
              gameState := GameState.PLAYER1_TURN
              player1 := { g1.player1 with isCurrentPlayer := true }
              player2 := { g1.player2 with isCurrentPlayer := false } }
          else g1
        else g1
      { g2 with shotInProgress := false, pocketOccurredThisShot := false }
    else g1
  else g1

/-- The inner loop of `checkCollisions` for a fixed unpocketed `balls[i]`, over
the balls `balls[j]`, `j > i`. -/
def collideWith (sqrt : K → K) : Ball K → List (Ball K) → Ball K × List (Ball K)
  | b, [] => (b, [])
  | b, other :: rest =>
    if other.isPocketed then
      let r := collideWith sqrt b rest
      (r.1, other :: r.2)
    else
      let c := b.checkCollision sqrt other
      let r := collideWith sqrt c.2.1 rest
      (r.1, c.2.2 :: r.2)

/-- The outer loop of `checkCollisions`, with the number of iterations left. -/
def checkCollisionsLoop (sqrt : K → K) : Nat → List (Ball K) → List (Ball K)
  | 0, balls => balls
  | _ + 1, [] => []
  | n + 1, b :: rest =>
    if b.isPocketed then b :: checkCollisionsLoop sqrt n rest
    else
      let r := collideWith sqrt b rest
      r.1 :: checkCollisionsLoop sqrt n r.2

/-- The function `checkCollisions`: the new value of the global `balls`. -/
def checkCollisions (sqrt : K → K) (g : Game K) : Game K :=
  { g with balls := checkCollisionsLoop sqrt g.balls.length g.balls }

/-! ## The launch of `handleInput` -/

/-- The velocity assignments of the `WM_LBUTTONUP` branch: the new cue ball. -/
def launchCue (sqrt : K → K) (aimDirection : Vector2D K) (shotPower : K) (cue : Ball K) :
    Ball K :=
  let dir := aimDirection.normalize sqrt
  let velocity := (dir.mul shotPower).mul (SHOT_MULTIPLIER K)
  let speed := velocity.length sqrt
  let velocity :=
    if speed > MAX_CUE_SPEED K then (velocity.normalize sqrt).mul (MAX_CUE_SPEED K) else velocity
  { cue with velocity := velocity }

/-- The `WM_LBUTTONUP` branch of `handleInput`; `none` when `balls[0]` is read
from an empty vector. -/
def handleLButtonUp (sqrt : K → K) (g : Game K) : Option (Game K) :=
  if g.aiming && decide (g.shotPower > 0) then
    match g.balls with
    | [] => none
    | cue :: rest =>
      if !cue.isPocketed && decide (cue.velocity.length sqrt < 0.1) then
        some { g with
                balls := launchCue sqrt g.aimDirection g.shotPower cue :: rest
                aiming := false
                shotPower := 0
                shotInProgress := true
                pocketOccurredThisShot := false }
      else some g
  else some g

/-! ## Predicates of the specification -/

/-- The cue-ball predicate on a collection: it is non-empty, the ball at index 0
has number 0, and no other ball has number 0. -/
def CueInvariant : List (Ball K) → Prop
  | [] => False
  | cue :: rest => cue.number = 0 ∧ ∀ b ∈ rest, b.number ≠ 0

/-- The player-flag predicate: the two `isCurrentPlayer` flags differ, and when
`gameState` is a player's turn it is that player's flag that is set. -/
def PlayerFlagsTrack (g : Game K) : Prop :=
  g.player1.isCurrentPlayer ≠ g.player2.isCurrentPlayer ∧
    (g.gameState = GameState.PLAYER1_TURN → g.player1.isCurrentPlayer = true) ∧
    (g.gameState = GameState.PLAYER2_TURN → g.player2.isCurrentPlayer = true)

end Defs

/-! ## Ball numbers are never rewritten -/

section Numbers

variable {K : Type} [LinearOrderedField K]

theorem checkPocket_number (sqrt : K → K) (p : Pocket K) (b : Ball K) :
    (p.checkPocket sqrt b).2.number = b.number := by
  unfold Pocket.checkPocket
  dsimp only
  split_ifs <;> rfl

theorem pocketLoop_number (sqrt : K → K) (sip : Bool) (ps : List (Pocket K)) :
    ∀ s : Ball K × Bool, (pocketLoop sqrt sip ps s).1.number = s.1.number := by
  induction ps with
  | nil => intro s; rfl
  | cons p ps ih =>
    rintro ⟨b, occ⟩
    simp only [pocketLoop]
    split_ifs <;> simp [ih, checkPocket_number]

theorem update_number (sqrt : K → K) (pow : K → K → K) (dt : K) (b : Ball K) :
    (b.update sqrt pow dt).number = b.number := by
  unfold Ball.update
  dsimp only
  split_ifs <;> rfl

theorem checkBoundaryCollision_number (sqrt : K → K) (b : Ball K) :
    (b.checkBoundaryCollision sqrt).number = b.number := by
  unfold Ball.checkBoundaryCollision
  dsimp only
  split_ifs <;> rfl

theorem ballLoop_numbers (sqrt : K → K) (pow : K → K → K) (dt : K) (ps : List (Pocket K))
    (sip : Bool) (balls : List (Ball K)) :
    ∀ occ, (ballLoop sqrt pow dt ps sip balls occ).1.map (fun b => b.number)
      = balls.map (fun b => b.number) := by
  induction balls with
  | nil => intro occ; rfl
  | cons b rest ih =>
    intro occ
    simp [ballLoop, ih, checkBoundaryCollision_number, update_number, pocketLoop_number]

theorem checkCollision_number (sqrt : K → K) (b o : Ball K) :
    (b.checkCollision sqrt o).2.1.number = b.number
      ∧ (b.checkCollision sqrt o).2.2.number = o.number := by
  unfold Ball.checkCollision
  dsimp only
  split_ifs <;> exact ⟨rfl, rfl⟩

theorem collideWith_numbers (sqrt : K → K) (l : List (Ball K)) :
    ∀ b : Ball K, (collideWith sqrt b l).1.number = b.number
      ∧ (collideWith sqrt b l).2.map (fun x => x.number) = l.map (fun x => x.number) := by
  induction l with
  | nil => intro b; exact ⟨rfl, rfl⟩
  | cons o rest ih =>
    intro b
    simp only [collideWith]
    split_ifs
    · simp [ih]
    · simp [ih, checkCollision_number]

theorem checkCollisionsLoop_numbers (sqrt : K → K) (n : Nat) :
    ∀ l : List (Ball K), (checkCollisionsLoop sqrt n l).map (fun x => x.number)
      = l.map (fun x => x.number) := by
  induction n with
  | zero => intro l; rfl
  | succ n ih =>
    intro l
    cases l with
    | nil => rfl
    | cons b rest =>
      simp only [checkCollisionsLoop]
      split_ifs
      · simp [ih]
      · simp [ih, collideWith_numbers]

omit [LinearOrderedField K] in
theorem CueInvariant_of_numbers {l l' : List (Ball K)}
    (h : l'.map (fun x => x.number) = l.map (fun x => x.number)) (hl : CueInvariant l) :
    CueInvariant l' := by
  cases l with
  | nil => exact hl.elim
  | cons c rest =>
    cases l' with
    | nil => simp at h
    | cons c' rest' =>
      simp only [List.map_cons, List.cons.injEq] at h
      obtain ⟨hc, hr⟩ := hl
      refine ⟨h.1.trans hc, ?_⟩
      intro b hb
      have : b.number ∈ rest'.map (fun x => x.number) := List.mem_map_of_mem _ hb
      rw [h.2] at this
      obtain ⟨b0, hb0, e⟩ := List.mem_map.1 this
      rw [← e]
      exact hr b0 hb0

theorem rebuild_cons_of_invariant (c : Ball K) (rest : List (Ball K)) (hc : c.number = 0)
    (hr : ∀ b ∈ rest, b.number ≠ 0) :
    rebuild (c :: rest)
      = (if c.toRemove then cueBall K else c) :: rest.filter (fun b => !b.toRemove) := by
  have hany : (rest.any fun b => b.toRemove && decide (b.number = 0)) = false := by
    rw [List.any_eq_false]
    intro b hb
    simp [hr b hb]
  cases ht : c.toRemove <;>
    simp [rebuild, hany, ht, hc, cueBall, Ball.new]

theorem rebuild_invariant (l : List (Ball K)) (hl : CueInvariant l) :
    CueInvariant (rebuild l) := by
  cases l with
  | nil => exact hl.elim
  | cons c rest =>
    obtain ⟨hc, hr⟩ := hl
    rw [rebuild_cons_of_invariant c rest hc hr]
    refine ⟨?_, ?_⟩
    · split_ifs
      · rfl
      · exact hc
    · intro b hb
      exact hr b (List.mem_of_mem_filter hb)

end Numbers

section CueBall

variable {K : Type} [LinearOrderedField K]

theorem updateBalls_balls (sqrt : K → K) (pow : K → K → K) (dt : K) (g : Game K) :
    (updateBalls sqrt pow dt g).balls
      = rebuild (ballLoop sqrt pow dt g.pockets g.shotInProgress g.balls
          g.pocketOccurredThisShot).1 := by
  unfold updateBalls
  dsimp only
  split_ifs <;> rfl

theorem initBalls_numbers :
    (initBalls K).map (fun b => b.number) = [0, 1, 2, 3, 4, 5, 6, 7, 8, 9, 10, 11, 12, 13, 14, 15] := by
  simp [initBalls, initBallsRows, initBallsRow, List.range, List.range.loop, Ball.new, cueBall]

theorem cueBall_position : (cueBall K).position = ⟨82, 300⟩ := by
  simp only [cueBall, Ball.new, CUSHION_WIDTH, BALL_RADIUS, TABLE_HEIGHT]
  norm_num

/-- C1: the collection built by `initBalls` is non-empty, has the ball numbered 0
at index 0 and no other ball numbered 0; every collection with that property has
it again after `updateBalls(dt)` and after the following `checkCollisions()`;
and in the step in which the cue ball is flagged for removal the collection left
by `updateBalls` starts with a freshly constructed cue ball placed at (82, 300),
followed by the other balls that are not flagged. -/
theorem cue_invariant_reachable (sqrt : K → K) (pow : K → K → K) :
    CueInvariant (initBalls K) ∧
    (∀ (dt : K) (g : Game K), CueInvariant g.balls →
      CueInvariant (updateBalls sqrt pow dt g).balls ∧
      CueInvariant (checkCollisions sqrt (updateBalls sqrt pow dt g)).balls ∧
      ∀ cue rest,
        (ballLoop sqrt pow dt g.pockets g.shotInProgress g.balls g.pocketOccurredThisShot).1
          = cue :: rest →
        cue.toRemove = true →
        (updateBalls sqrt pow dt g).balls = cueBall K :: rest.filter (fun b => !b.toRemove)) ∧
    (cueBall K).position = ⟨82, 300⟩ ∧ (cueBall K).number = 0 := by
  refine ⟨?_, ?_, cueBall_position, rfl⟩
  · have h := initBalls_numbers (K := K)
    cases hb : initBalls K with
    | nil => rw [hb] at h; simp at h
    | cons c rest =>
      rw [hb] at h
      simp only [List.map_cons, List.cons.injEq] at h
      refine ⟨h.1, ?_⟩
      intro b hb'
      have hm : b.number ∈ rest.map (fun x => x.number) := List.mem_map_of_mem _ hb'
      rw [h.2] at hm
      intro h0
      rw [h0] at hm
      simp at hm
  · intro dt g hg
    have hstep : CueInvariant
        (ballLoop sqrt pow dt g.pockets g.shotInProgress g.balls g.pocketOccurredThisShot).1 :=
      CueInvariant_of_numbers (ballLoop_numbers sqrt pow dt g.pockets g.shotInProgress g.balls _) hg
    have hupd : CueInvariant (updateBalls sqrt pow dt g).balls := by
      rw [updateBalls_balls]
      exact rebuild_invariant _ hstep
    refine ⟨hupd, ?_, ?_⟩
    · exact CueInvariant_of_numbers (checkCollisionsLoop_numbers sqrt _ _) hupd
    · intro cue rest hs ht
      rw [updateBalls_balls, hs]
      rw [hs] at hstep
      rw [rebuild_cons_of_invariant cue rest hstep.1 hstep.2, ht]
      rfl

/-- A pocketed cue ball whose animation has 0.39 s on the clock, alone on the table. -/
theorem cue_invariant_reachable_witness :
    CueInvariant
      (checkCollisions (fun x : ℚ => x)
        (updateBalls (fun x : ℚ => x) (fun x _ => x) (1 / 50)
          { initGame (⟨1, 0⟩ : Vector2D ℚ) with
            balls := [{ cueBall ℚ with isPocketed := true, pocketTimer := 39 / 100 }] })).balls :=
  ((cue_invariant_reachable (fun x : ℚ => x) (fun x _ => x)).2.1 (1 / 50)
    { initGame (⟨1, 0⟩ : Vector2D ℚ) with
      balls := [{ cueBall ℚ with isPocketed := true, pocketTimer := 39 / 100 }] }
    ⟨rfl, by simp⟩).2.1

end CueBall

section Turn

variable {K : Type} [LinearOrderedField K]

theorem checkPocket_of_pocketed (sqrt : K → K) (p : Pocket K) (b : Ball K)
    (h : b.isPocketed = true) : p.checkPocket sqrt b = (false, b) := by
  simp [Pocket.checkPocket, h]

theorem checkPocket_false_eq (sqrt : K → K) (p : Pocket K) (b : Ball K)
    (h : (p.checkPocket sqrt b).1 = false) : (p.checkPocket sqrt b).2 = b := by
  unfold Pocket.checkPocket at h ⊢
  dsimp only at h ⊢
  split_ifs at h ⊢ <;> simp_all

theorem checkPocket_true_pocketed (sqrt : K → K) (p : Pocket K) (b : Ball K)
    (h : (p.checkPocket sqrt b).1 = true) : (p.checkPocket sqrt b).2.isPocketed = true := by
  unfold Pocket.checkPocket at h ⊢
  dsimp only at h ⊢
  split_ifs at h ⊢
  rfl

theorem pocketLoop_of_pocketed (sqrt : K → K) (sip : Bool) (ps : List (Pocket K)) (b : Ball K)
    (occ : Bool) (h : b.isPocketed = true) : pocketLoop sqrt sip ps (b, occ) = (b, occ) := by
  induction ps with
  | nil => rfl
  | cons p ps ih => simp [pocketLoop, h, ih]

theorem pocketLoop_flag (sqrt : K → K) (sip : Bool) (ps : List (Pocket K)) (b : Ball K)
    (occ : Bool) :
    (pocketLoop sqrt sip ps (b, occ)).2
      = (occ || (sip && ps.any fun p => (p.checkPocket sqrt b).1)) := by
  induction ps generalizing occ with
  | nil => simp [pocketLoop]
  | cons p ps ih =>
    cases hb : b.isPocketed with
    | true =>
      rw [pocketLoop_of_pocketed sqrt sip _ b occ hb]
      simp [checkPocket_of_pocketed sqrt _ b hb]
    | false =>
      simp only [pocketLoop, hb, Bool.not_false, if_true, List.any_cons]
      cases hr : (p.checkPocket sqrt b).1 with
      | true =>
        simp only [if_true]
        rw [pocketLoop_of_pocketed sqrt sip ps _ _ (checkPocket_true_pocketed sqrt p b hr)]
        cases sip <;> cases occ <;> simp
      | false =>
        simp only [Bool.false_eq_true, if_false, Bool.false_or]
        rw [checkPocket_false_eq sqrt p b hr]
        exact ih occ

theorem ballLoop_flag (sqrt : K → K) (pow : K → K → K) (dt : K) (ps : List (Pocket K))
    (sip : Bool) (balls : List (Ball K)) (occ : Bool) :
    (ballLoop sqrt pow dt ps sip balls occ).2
      = (occ || (sip && balls.any fun b => ps.any fun p => (p.checkPocket sqrt b).1)) := by
  induction balls generalizing occ with
  | nil => simp [ballLoop]
  | cons b rest ih =>
    simp only [ballLoop, List.any_cons]
    rw [ih, pocketLoop_flag]
    cases sip <;> cases occ <;> simp

end Turn

section RealArith

theorem length_lt_iff (v : Vector2D ℝ) {c : ℝ} (hc : 0 < c) :
    v.length Real.sqrt < c ↔ v.x * v.x + v.y * v.y < c ^ 2 := by
  unfold Vector2D.length
  exact Real.sqrt_lt' hc

theorem lt_length_iff (v : Vector2D ℝ) {c : ℝ} (hc : 0 ≤ c) :
    c < v.length Real.sqrt ↔ c ^ 2 < v.x * v.x + v.y * v.y := by
  unfold Vector2D.length
  exact Real.lt_sqrt hc

theorem length_nonneg (v : Vector2D ℝ) : 0 ≤ v.length Real.sqrt := Real.sqrt_nonneg _

theorem length_sq (v : Vector2D ℝ) :
    v.length Real.sqrt * v.length Real.sqrt = v.x * v.x + v.y * v.y := by
  unfold Vector2D.length
  exact Real.mul_self_sqrt (add_nonneg (mul_self_nonneg _) (mul_self_nonneg _))

end RealArith

section Settle

variable {K : Type} [LinearOrderedField K]

theorem anyMovingOrAnimating_eq_false (sqrt : K → K) (l : List (Ball K)) :
    anyMovingOrAnimating sqrt l = false ↔
      ∀ b ∈ l, b.velocity.length sqrt ≤ 0.1 ∧ (b.isPocketed = true → b.toRemove = true) := by
  induction l with
  | nil => simp [anyMovingOrAnimating]
  | cons b rest ih =>
    simp only [anyMovingOrAnimating, List.mem_cons, forall_eq_or_imp]
    split_ifs with h1 h2
    · simp [not_le.2 h1]
    · simp only [Bool.and_eq_true, Bool.not_eq_true'] at h2
      simp [h2.1, h2.2]
    · rw [ih]
      simp only [Bool.and_eq_true, Bool.not_eq_true', not_and, Bool.not_eq_false] at h2
      constructor
      · intro hr
        exact ⟨⟨not_lt.1 h1, h2⟩, hr⟩
      · intro hr
        exact hr.2

/-- The settle test as the code performs it: with a shot in progress,
`updateBalls(dt)` ends the shot exactly when, in the rebuilt collection, no ball
is faster than 0.1 and no ball is pocketed without being flagged for removal. -/
theorem settle_condition_code (sqrt : K → K) (pow : K → K → K) (dt : K) (g : Game K)
    (h : g.shotInProgress = true) :
    (((updateBalls sqrt pow dt g).shotInProgress = false ∧
        (updateBalls sqrt pow dt g).pocketOccurredThisShot = false) ↔
      ∀ b ∈ (updateBalls sqrt pow dt g).balls,
        b.velocity.length sqrt ≤ 0.1 ∧ (b.isPocketed = true → b.toRemove = true)) ∧
    ((¬∀ b ∈ (updateBalls sqrt pow dt g).balls,
        b.velocity.length sqrt ≤ 0.1 ∧ (b.isPocketed = true → b.toRemove = true)) →
      (updateBalls sqrt pow dt g).shotInProgress = true) := by
  rw [← anyMovingOrAnimating_eq_false, updateBalls_balls]
  unfold updateBalls
  dsimp only
  generalize ballLoop sqrt pow dt g.pockets g.shotInProgress g.balls
    g.pocketOccurredThisShot = s
  rw [h]
  cases anyMovingOrAnimating sqrt (rebuild s.1) <;> simp

end Settle

section SettleThreshold

/-- C3, the code at the failing input: a lone cue ball at (400, 300) moving at
(5/49, 0) with a shot in progress and `dt = 1/60`.  After `updateBalls` the ball
has moved, its velocity is (1/10, 0), whose magnitude is not strictly below 0.1,
and yet the shot has ended and the turn has passed to player 2. -/
theorem settle_at_threshold_speed :
    (updateBalls Real.sqrt Real.rpow (1 / 60)
        { initGame (⟨1, 0⟩ : Vector2D ℝ) with
          balls := [{ cueBall ℝ with position := ⟨400, 300⟩, velocity := ⟨5 / 49, 0⟩ }]
          shotInProgress := true }).balls
      = [{ cueBall ℝ with position := ⟨400 + 1 / 600, 300⟩, velocity := ⟨1 / 10, 0⟩ }] ∧
    ¬ ((⟨1 / 10, 0⟩ : Vector2D ℝ).length Real.sqrt < 0.1) ∧
    (updateBalls Real.sqrt Real.rpow (1 / 60)
        { initGame (⟨1, 0⟩ : Vector2D ℝ) with
          balls := [{ cueBall ℝ with position := ⟨400, 300⟩, velocity := ⟨5 / 49, 0⟩ }]
          shotInProgress := true }).shotInProgress = false ∧
    (updateBalls Real.sqrt Real.rpow (1 / 60)
        { initGame (⟨1, 0⟩ : Vector2D ℝ) with
          balls := [{ cueBall ℝ with position := ⟨400, 300⟩, velocity := ⟨5 / 49, 0⟩ }]
          shotInProgress := true }).gameState = GameState.PLAYER2_TURN := by
  have e1 : Real.rpow (49 / 50) 1 = 49 / 50 := Real.rpow_one _
  have hloop : ballLoop Real.sqrt Real.rpow (1 / 60) (initPockets ℝ) true
        [{ cueBall ℝ with position := ⟨400, 300⟩, velocity := ⟨5 / 49, 0⟩ }] false
      = ([{ cueBall ℝ with position := ⟨400 + 1 / 600, 300⟩, velocity := ⟨1 / 10, 0⟩ }],
          false) := by
    norm_num [ballLoop, pocketLoop, initPockets, Pocket.new, Pocket.checkPocket,
      cueBall, Ball.new, Vector2D.sub, Ball.update, Ball.checkBoundaryCollision,
      isOverPocketArea, computePocketCenters, Vector2D.mul, Vector2D.add,
      CUSHION_WIDTH, BALL_RADIUS, TABLE_HEIGHT, TABLE_WIDTH, POCKET_RADIUS,
      POCKET_INSET, FRICTION, length_lt_iff, lt_length_iff, e1]
  have hreb : rebuild [({ cueBall ℝ with
        position := ⟨400 + 1 / 600, 300⟩, velocity := ⟨1 / 10, 0⟩ } : Ball ℝ)]
      = [{ cueBall ℝ with position := ⟨400 + 1 / 600, 300⟩, velocity := ⟨1 / 10, 0⟩ }] := by
    simp [rebuild, cueBall, Ball.new]
  have hany : anyMovingOrAnimating Real.sqrt [({ cueBall ℝ with
        position := ⟨400 + 1 / 600, 300⟩, velocity := ⟨1 / 10, 0⟩ } : Ball ℝ)] = false := by
    norm_num [anyMovingOrAnimating, lt_length_iff, cueBall, Ball.new]
  have hlen : ¬ ((⟨1 / 10, 0⟩ : Vector2D ℝ).length Real.sqrt < 0.1) := by
    norm_num [length_lt_iff]
  refine ⟨?_, hlen, ?_, ?_⟩
  · rw [updateBalls_balls]
    simp only [initGame]
    rw [hloop, hreb]
  · simp only [updateBalls, initGame]
    rw [hloop]
    simp only [hreb, hany]
    simp
  · simp only [updateBalls, initGame]
    rw [hloop]
    simp only [hreb, hany]
    simp

end SettleThreshold

section TurnCode

variable {K : Type} [LinearOrderedField K]

/-- The turn switch as the code performs it: `updateBalls(dt)` changes `gameState`
if and only if `gameState` is `PLAYER1_TURN` or `PLAYER2_TURN`, `shotInProgress`
was true on entry, in the collection left by the step no ball is faster than 0.1
and no ball is pocketed without being flagged for removal, and
`pocketOccurredThisShot` is false after this step's capture tests; in that case
the new state is the other player's turn, in every other case `gameState` is
unchanged.  The flag after the capture tests is false exactly when it was false
on entry and, if a shot is in progress, no pocket captures any ball in this
step. -/
theorem turn_alternation_code (sqrt : K → K) (pow : K → K → K) (dt : K) (g : Game K) :
    ((updateBalls sqrt pow dt g).gameState ≠ g.gameState ↔
      ((g.gameState = GameState.PLAYER1_TURN ∨ g.gameState = GameState.PLAYER2_TURN) ∧
        g.shotInProgress = true ∧
        (∀ b ∈ (updateBalls sqrt pow dt g).balls,
          b.velocity.length sqrt ≤ 0.1 ∧ (b.isPocketed = true → b.toRemove = true)) ∧
        (ballLoop sqrt pow dt g.pockets g.shotInProgress g.balls
          g.pocketOccurredThisShot).2 = false)) ∧
    ((g.gameState = GameState.PLAYER1_TURN ∨ g.gameState = GameState.PLAYER2_TURN) ∧
        g.shotInProgress = true ∧
        (∀ b ∈ (updateBalls sqrt pow dt g).balls,
          b.velocity.length sqrt ≤ 0.1 ∧ (b.isPocketed = true → b.toRemove = true)) ∧
        (ballLoop sqrt pow dt g.pockets g.shotInProgress g.balls
          g.pocketOccurredThisShot).2 = false →
      (g.gameState = GameState.PLAYER1_TURN ∧
          (updateBalls sqrt pow dt g).gameState = GameState.PLAYER2_TURN) ∨
        (g.gameState = GameState.PLAYER2_TURN ∧
          (updateBalls sqrt pow dt g).gameState = GameState.PLAYER1_TURN)) ∧
    (¬((g.gameState = GameState.PLAYER1_TURN ∨ g.gameState = GameState.PLAYER2_TURN) ∧
        g.shotInProgress = true ∧
        (∀ b ∈ (updateBalls sqrt pow dt g).balls,
          b.velocity.length sqrt ≤ 0.1 ∧ (b.isPocketed = true → b.toRemove = true)) ∧
        (ballLoop sqrt pow dt g.pockets g.shotInProgress g.balls
          g.pocketOccurredThisShot).2 = false) →
      (updateBalls sqrt pow dt g).gameState = g.gameState) ∧
    ((ballLoop sqrt pow dt g.pockets g.shotInProgress g.balls g.pocketOccurredThisShot).2 = false ↔
      (g.pocketOccurredThisShot = false ∧
        (g.shotInProgress = true →
          ∀ b ∈ g.balls, ∀ p ∈ g.pockets, (p.checkPocket sqrt b).1 = false))) := by
  have hflag := ballLoop_flag sqrt pow dt g.pockets g.shotInProgress g.balls
    g.pocketOccurredThisShot
  rw [← anyMovingOrAnimating_eq_false, updateBalls_balls]
  refine ⟨?_, ?_, ?_, ?_⟩
  · unfold updateBalls
    dsimp only
    generalize ballLoop sqrt pow dt g.pockets g.shotInProgress g.balls
      g.pocketOccurredThisShot = s
    cases g.shotInProgress <;> cases anyMovingOrAnimating sqrt (rebuild s.1) <;>
      cases s.2 <;> cases g.gameState <;> simp
  · unfold updateBalls
    dsimp only
    generalize ballLoop sqrt pow dt g.pockets g.shotInProgress g.balls
      g.pocketOccurredThisShot = s
    cases g.shotInProgress <;> cases anyMovingOrAnimating sqrt (rebuild s.1) <;>
      cases s.2 <;> cases g.gameState <;> simp
  · unfold updateBalls
    dsimp only
    generalize ballLoop sqrt pow dt g.pockets g.shotInProgress g.balls
      g.pocketOccurredThisShot = s
    cases g.shotInProgress <;> cases anyMovingOrAnimating sqrt (rebuild s.1) <;>
      cases s.2 <;> cases g.gameState <;> simp
  · rw [hflag]
    cases g.pocketOccurredThisShot <;> cases g.shotInProgress <;> simp

end TurnCode

section TurnCodeWitness
/-- A lone cue ball at rest on its spot with a shot in progress: the shot has
settled without a capture, and the turn passes from player 1 to player 2. -/
theorem turn_alternation_code_witness :
    (updateBalls (fun x : ℚ => x) (fun x _ => x) (1 / 60)
        { initGame (⟨1, 0⟩ : Vector2D ℚ) with
          balls := [cueBall ℚ], shotInProgress := true }).gameState
      = GameState.PLAYER2_TURN := by
  have h := (turn_alternation_code (fun x : ℚ => x) (fun x _ => x) (1 / 60)
        { initGame (⟨1, 0⟩ : Vector2D ℚ) with
          balls := [cueBall ℚ], shotInProgress := true }).2.1
    ⟨Or.inl rfl, rfl, by
      rw [← anyMovingOrAnimating_eq_false, updateBalls_balls]
      norm_num [ballLoop, pocketLoop, initGame, initPockets, Pocket.new, Pocket.checkPocket,
        cueBall, Ball.new, Vector2D.sub, Vector2D.length, Ball.update, Ball.checkBoundaryCollision,
        isOverPocketArea, computePocketCenters, Vector2D.mul, Vector2D.add, rebuild,
        anyMovingOrAnimating, CUSHION_WIDTH, BALL_RADIUS, TABLE_HEIGHT, TABLE_WIDTH, POCKET_RADIUS,
        POCKET_INSET, FRICTION], by
      norm_num [ballLoop, pocketLoop, initGame, initPockets, Pocket.new, Pocket.checkPocket,
        cueBall, Ball.new, Vector2D.sub, Vector2D.length, CUSHION_WIDTH, BALL_RADIUS,
        TABLE_HEIGHT, TABLE_WIDTH, POCKET_RADIUS]⟩
  rcases h with h | h
  · exact h.2
  · exact absurd h.1 (by decide)
end TurnCodeWitness

section TurnThreshold

/-- C2, the code at the failing input: player 1 to play, a shot in progress, no
capture recorded, a lone cue ball at (400, 300) moving at (5/49, 0), and
`dt = 1/60`.  No pocket captures the ball, so `pocketOccurredThisShot` is false
after the capture tests.  After `updateBalls` the cue ball moves at (1/10, 0),
whose magnitude is not strictly below 0.1, so not every ball of the collection is
slower than 0.1 and the shot has not settled; `gameState` has nevertheless
changed from `PLAYER1_TURN` to `PLAYER2_TURN`. -/
theorem turn_passes_at_threshold_speed :
    ({ initGame (⟨1, 0⟩ : Vector2D ℝ) with
        balls := [{ cueBall ℝ with position := ⟨400, 300⟩, velocity := ⟨5 / 49, 0⟩ }]
        shotInProgress := true } : Game ℝ).gameState = GameState.PLAYER1_TURN ∧
    (ballLoop Real.sqrt Real.rpow (1 / 60) (initPockets ℝ) true
        [{ cueBall ℝ with position := ⟨400, 300⟩, velocity := ⟨5 / 49, 0⟩ }] false).2 = false ∧
    (∃ b ∈ (updateBalls Real.sqrt Real.rpow (1 / 60)
        { initGame (⟨1, 0⟩ : Vector2D ℝ) with
          balls := [{ cueBall ℝ with position := ⟨400, 300⟩, velocity := ⟨5 / 49, 0⟩ }]
          shotInProgress := true }).balls,
      b.velocity = ⟨1 / 10, 0⟩ ∧ b.isPocketed = false ∧
        ¬ (b.velocity.length Real.sqrt < 0.1)) ∧
    ¬ (∀ b ∈ (updateBalls Real.sqrt Real.rpow (1 / 60)
        { initGame (⟨1, 0⟩ : Vector2D ℝ) with
          balls := [{ cueBall ℝ with position := ⟨400, 300⟩, velocity := ⟨5 / 49, 0⟩ }]
          shotInProgress := true }).balls,
      b.velocity.length Real.sqrt < 0.1 ∧ (b.isPocketed = true → b.toRemove = true)) ∧
    (updateBalls Real.sqrt Real.rpow (1 / 60)
        { initGame (⟨1, 0⟩ : Vector2D ℝ) with
          balls := [{ cueBall ℝ with position := ⟨400, 300⟩, velocity := ⟨5 / 49, 0⟩ }]
          shotInProgress := true }).gameState = GameState.PLAYER2_TURN := by
  have e1 : Real.rpow (49 / 50) 1 = 49 / 50 := Real.rpow_one _
  have hloop : ballLoop Real.sqrt Real.rpow (1 / 60) (initPockets ℝ) true
        [{ cueBall ℝ with position := ⟨400, 300⟩, velocity := ⟨5 / 49, 0⟩ }] false
      = ([{ cueBall ℝ with position := ⟨400 + 1 / 600, 300⟩, velocity := ⟨1 / 10, 0⟩ }],
          false) := by
    norm_num [ballLoop, pocketLoop, initPockets, Pocket.new, Pocket.checkPocket,
      cueBall, Ball.new, Vector2D.sub, Ball.update, Ball.checkBoundaryCollision,
      isOverPocketArea, computePocketCenters, Vector2D.mul, Vector2D.add,
      CUSHION_WIDTH, BALL_RADIUS, TABLE_HEIGHT, TABLE_WIDTH, POCKET_RADIUS,
      POCKET_INSET, FRICTION, length_lt_iff, lt_length_iff, e1]
  have hreb : rebuild [({ cueBall ℝ with
        position := ⟨400 + 1 / 600, 300⟩, velocity := ⟨1 / 10, 0⟩ } : Ball ℝ)]
      = [{ cueBall ℝ with position := ⟨400 + 1 / 600, 300⟩, velocity := ⟨1 / 10, 0⟩ }] := by
    simp [rebuild, cueBall, Ball.new]
  have hany : anyMovingOrAnimating Real.sqrt [({ cueBall ℝ with
        position := ⟨400 + 1 / 600, 300⟩, velocity := ⟨1 / 10, 0⟩ } : Ball ℝ)] = false := by
    norm_num [anyMovingOrAnimating, lt_length_iff, cueBall, Ball.new]
  have hlen : ¬ ((⟨1 / 10, 0⟩ : Vector2D ℝ).length Real.sqrt < 0.1) := by
    norm_num [length_lt_iff]
  have hballs : (updateBalls Real.sqrt Real.rpow (1 / 60)
        { initGame (⟨1, 0⟩ : Vector2D ℝ) with
          balls := [{ cueBall ℝ with position := ⟨400, 300⟩, velocity := ⟨5 / 49, 0⟩ }]
          shotInProgress := true }).balls
      = [{ cueBall ℝ with position := ⟨400 + 1 / 600, 300⟩, velocity := ⟨1 / 10, 0⟩ }] := by
    rw [updateBalls_balls]
    simp only [initGame]
    rw [hloop, hreb]
  refine ⟨rfl, ?_, ?_, ?_, ?_⟩
  · rw [hloop]
  · rw [hballs]
    exact ⟨_, List.mem_singleton.2 rfl, rfl, rfl, hlen⟩
  · rw [hballs]
    intro hall
    exact hlen (hall _ (List.mem_singleton.2 rfl)).1
  · simp only [updateBalls, initGame]
    rw [hloop]
    simp only [hreb, hany]
    simp

end TurnThreshold

section PocketCapture

/-- C4: `checkPocket` returns true if and only if the ball is not already
pocketed and the Euclidean distance from the ball's centre to the pocket centre
is strictly less than the pocket radius; when it returns true the ball is the
old ball with `isPocketed = true`, velocity (0, 0), `pocketPosition` the pocket
centre and `pocketTimer = 0` (position and every other field unchanged); when it
returns false the ball is unchanged. -/
theorem checkPocket_spec (p : Pocket ℝ) (b : Ball ℝ) :
    ((p.checkPocket Real.sqrt b).1 = true ↔
      (b.isPocketed = false ∧
        Real.sqrt ((b.position.x - p.position.x) ^ 2 + (b.position.y - p.position.y) ^ 2)
          < p.radius)) ∧
    ((p.checkPocket Real.sqrt b).1 = true →
      (p.checkPocket Real.sqrt b).2
        = { b with
            isPocketed := true
            velocity := ⟨0, 0⟩
            pocketPosition := p.position
            pocketTimer := 0 }) ∧
    ((p.checkPocket Real.sqrt b).1 = false → (p.checkPocket Real.sqrt b).2 = b) := by
  have hd : (b.position.sub p.position).length Real.sqrt
      = Real.sqrt ((b.position.x - p.position.x) ^ 2 + (b.position.y - p.position.y) ^ 2) := by
    simp [Vector2D.length, Vector2D.sub, sq]
  rw [← hd]
  unfold Pocket.checkPocket
  dsimp only
  cases hb : b.isPocketed with
  | true => simp
  | false =>
    by_cases hlt : (b.position.sub p.position).length Real.sqrt < p.radius
    · simp only [hlt, if_true, true_and, implies_true, and_true, Bool.true_eq_false,
        false_implies]
      norm_num
    · simp [hlt]

/-- A ball at (18, 19), at distance 5 from the pocket centred at (15, 15). -/
theorem checkPocket_spec_witness :
    ((Pocket.new 15 15 25 : Pocket ℝ).checkPocket Real.sqrt (Ball.new 18 19 3 BallType.SOLID 0 0)).2
      = { (Ball.new 18 19 3 BallType.SOLID 0 0 : Ball ℝ) with
          isPocketed := true
          velocity := ⟨0, 0⟩
          pocketPosition := (Pocket.new 15 15 25 : Pocket ℝ).position
          pocketTimer := 0 } :=
  (checkPocket_spec (Pocket.new 15 15 25) (Ball.new 18 19 3 BallType.SOLID 0 0)).2.1
    ((checkPocket_spec (Pocket.new 15 15 25) (Ball.new 18 19 3 BallType.SOLID 0 0)).1.2
      ⟨rfl, by
        rw [Real.sqrt_lt' (by norm_num [Pocket.new])]
        norm_num [Pocket.new, Ball.new]⟩)

end PocketCapture

section PocketAnimation

theorem update_pocketed (dt : ℝ) (b : Ball ℝ) (hp : b.isPocketed = true) :
    b.update Real.sqrt Real.rpow dt
      = { b with
          pocketTimer := b.pocketTimer + dt
          position :=
            ⟨b.position.x * (1 - min 1 ((b.pocketTimer + dt) / 0.4))
                + b.pocketPosition.x * min 1 ((b.pocketTimer + dt) / 0.4),
              b.position.y * (1 - min 1 ((b.pocketTimer + dt) / 0.4))
                + b.pocketPosition.y * min 1 ((b.pocketTimer + dt) / 0.4)⟩
          toRemove := if b.pocketTimer + dt ≥ 0.4 then true else b.toRemove } := by
  have ht : (if (b.pocketTimer + dt) / 0.4 > (1.0 : ℝ) then (1.0 : ℝ)
      else (b.pocketTimer + dt) / 0.4) = min 1 ((b.pocketTimer + dt) / 0.4) := by
    rw [min_def]
    have h1 : (1.0 : ℝ) = 1 := by norm_num
    rw [h1]
    by_cases h : 1 ≤ (b.pocketTimer + dt) / 0.4
    · rcases eq_or_lt_of_le h with h' | h'
      · simp [← h']
      · simp [h, h']
    · simp [h, not_lt.2 (le_of_lt (not_le.1 h))]
  unfold Ball.update
  simp only [hp, if_true]
  rw [ht]
  have h1 : (1.0 : ℝ) = 1 := by norm_num
  rw [h1]
  split_ifs <;> rfl

/-- C5: for a pocketed ball with `toRemove = false` and `pocketTimer ≥ 0` and
for `dt ≥ 0`, after `Ball::update(dt)` the new position `p'` satisfies
`p' - pocketPosition = (1 - t) * (p - pocketPosition)` with
`t = min(1, (pocketTimer + dt) / 0.4)`, the distance to the pocket centre does
not increase, `toRemove` is true afterwards if and only if
`pocketTimer + dt ≥ 0.4`, and in that case `p'` is `pocketPosition` exactly. -/
theorem pocket_animation (dt : ℝ) (b : Ball ℝ) (hp : b.isPocketed = true)
    (hr : b.toRemove = false) (ht : 0 ≤ b.pocketTimer) (hdt : 0 ≤ dt) :
    (b.update Real.sqrt Real.rpow dt).position.sub b.pocketPosition
        = (b.position.sub b.pocketPosition).mul (1 - min 1 ((b.pocketTimer + dt) / 0.4)) ∧
    ((b.update Real.sqrt Real.rpow dt).position.sub b.pocketPosition).length Real.sqrt
        ≤ (b.position.sub b.pocketPosition).length Real.sqrt ∧
    ((b.update Real.sqrt Real.rpow dt).toRemove = true ↔ b.pocketTimer + dt ≥ 0.4) ∧
    (b.pocketTimer + dt ≥ 0.4 →
      (b.update Real.sqrt Real.rpow dt).position = b.pocketPosition) := by
  rw [update_pocketed dt b hp]
  have ht0 : 0 ≤ min 1 ((b.pocketTimer + dt) / 0.4) :=
    le_min zero_le_one (div_nonneg (add_nonneg ht hdt) (by norm_num))
  have ht1 : min 1 ((b.pocketTimer + dt) / 0.4) ≤ 1 := min_le_left _ _
  refine ⟨?_, ?_, ?_, ?_⟩
  · simp only [Vector2D.sub, Vector2D.mul, Vector2D.mk.injEq]
    constructor <;> ring
  · simp only [Vector2D.sub, Vector2D.length]
    apply Real.sqrt_le_sqrt
    set t := min 1 ((b.pocketTimer + dt) / 0.4)
    set dx := b.position.x - b.pocketPosition.x
    set dy := b.position.y - b.pocketPosition.y
    have e1 : b.position.x * (1 - t) + b.pocketPosition.x * t - b.pocketPosition.x
        = (1 - t) * dx := by ring
    have e2 : b.position.y * (1 - t) + b.pocketPosition.y * t - b.pocketPosition.y
        = (1 - t) * dy := by ring
    rw [e1, e2]
    have hs : (1 - t) * (1 - t) ≤ 1 := by nlinarith
    nlinarith [mul_self_nonneg dx, mul_self_nonneg dy]
  · simp only [hr]
    by_cases h : b.pocketTimer + dt ≥ 0.4 <;> simp [h]
  · intro h
    have hq : (1 : ℝ) ≤ (b.pocketTimer + dt) / 0.4 := by
      rw [le_div_iff₀ (by norm_num)]
      linarith
    simp [min_eq_left hq]

/-- A pocketed ball at (20, 21) sinking into the pocket centred at (15, 15),
0.3 s into the animation, stepped by 0.2 s. -/
theorem pocket_animation_witness :
    (({ (Ball.new 20 21 3 BallType.SOLID 0 0 : Ball ℝ) with
          isPocketed := true, pocketPosition := ⟨15, 15⟩, pocketTimer := 3 / 10 } : Ball ℝ).update
        Real.sqrt Real.rpow (1 / 5)).position = ⟨15, 15⟩ :=
  (pocket_animation (1 / 5)
    { (Ball.new 20 21 3 BallType.SOLID 0 0 : Ball ℝ) with
      isPocketed := true, pocketPosition := ⟨15, 15⟩, pocketTimer := 3 / 10 }
    rfl rfl (by norm_num) (by norm_num)).2.2.2 (by norm_num)

end PocketAnimation

section Collision

theorem normalize_of_gt (v : Vector2D ℝ) (h : 0.1 < v.length Real.sqrt) :
    v.normalize Real.sqrt = ⟨v.x / v.length Real.sqrt, v.y / v.length Real.sqrt⟩ := by
  unfold Vector2D.normalize
  simp [h]

theorem normalize_of_le (v : Vector2D ℝ) (h : v.length Real.sqrt ≤ 0.1) :
    v.normalize Real.sqrt = ⟨0, 0⟩ := by
  unfold Vector2D.normalize
  simp [not_lt.2 h]

theorem normalize_dot_self (v : Vector2D ℝ) (h : 0.1 < v.length Real.sqrt) :
    (v.normalize Real.sqrt).dot (v.normalize Real.sqrt) = 1 := by
  have hpos : 0 < v.length Real.sqrt := lt_trans (by norm_num) h
  rw [normalize_of_gt v h]
  simp only [Vector2D.dot]
  have hs := length_sq v
  field_simp
  nlinarith [hs]

/-- The result of `checkCollision` when no response is computed. -/
theorem checkCollision_miss (b o : Ball ℝ)
    (h : ¬(b.isPocketed = false ∧ o.isPocketed = false ∧
      0.1 < (b.position.sub o.position).length Real.sqrt ∧
      (b.position.sub o.position).length Real.sqrt < 25.2 ∧
      (b.velocity.sub o.velocity).dot ((b.position.sub o.position).normalize Real.sqrt)
        ≤ -0.1)) :
    b.checkCollision Real.sqrt o = (false, b, o) := by
  unfold Ball.checkCollision
  dsimp only
  cases hb : b.isPocketed with
  | true => simp
  | false =>
    cases ho : o.isPocketed with
    | true => simp
    | false =>
      simp only [hb, ho, true_and, not_and, not_le] at h
      simp only [Bool.or_self, Bool.false_eq_true, if_false]
      have key : (b.position.sub o.position).length Real.sqrt < 2.1 * ((BALL_RADIUS : ℤ) : ℝ)
            ∧ (b.position.sub o.position).length Real.sqrt > 0 →
          ¬ (b.velocity.sub o.velocity).dot ((b.position.sub o.position).normalize Real.sqrt)
            ≥ 0 →
          ¬ |(b.velocity.sub o.velocity).dot ((b.position.sub o.position).normalize Real.sqrt)|
            < MIN_COLLISION_SPEED ℝ → False := by
        intro h1 h2 h3
        have hd2 : (b.position.sub o.position).length Real.sqrt < 25.2 := by
          have := h1.1
          simp only [BALL_RADIUS] at this
          norm_num at this ⊢
          linarith
        by_cases hd1 : 0.1 < (b.position.sub o.position).length Real.sqrt
        · have := h hd1 hd2
          simp only [MIN_COLLISION_SPEED] at h3
          rw [abs_of_neg (not_le.1 h2)] at h3
          linarith
        · rw [normalize_of_le _ (not_lt.1 hd1)] at h2
          simp [Vector2D.dot] at h2
      split_ifs with h1 h2 h3 h4
      · rfl
      · rfl
      · exact (key h1 h2 h3).elim
      · exact (key h1 h2 h3).elim
      · rfl

/-- The result of `checkCollision` when a response is computed. -/
theorem checkCollision_hit (b o : Ball ℝ)
    (hb : b.isPocketed = false) (ho : o.isPocketed = false)
    (hd1 : 0.1 < (b.position.sub o.position).length Real.sqrt)
    (hd2 : (b.position.sub o.position).length Real.sqrt < 25.2)
    (hv : (b.velocity.sub o.velocity).dot ((b.position.sub o.position).normalize Real.sqrt)
      ≤ -0.1) :
    b.checkCollision Real.sqrt o
      = (true,
          { b with
            velocity := b.velocity.add
              (((b.position.sub o.position).normalize Real.sqrt).mul
                (-(1 + 0.85) * (b.velocity.sub o.velocity).dot
                  ((b.position.sub o.position).normalize Real.sqrt) / 2))
            position :=
              if (b.position.sub o.position).length Real.sqrt < 24 then
                b.position.add
                  (((b.position.sub o.position).normalize Real.sqrt).mul
                    ((24 - (b.position.sub o.position).length Real.sqrt) / 2))
              else b.position },
          { o with
            velocity := o.velocity.sub
              (((b.position.sub o.position).normalize Real.sqrt).mul
                (-(1 + 0.85) * (b.velocity.sub o.velocity).dot
                  ((b.position.sub o.position).normalize Real.sqrt) / 2))
            position :=
              if (b.position.sub o.position).length Real.sqrt < 24 then
                o.position.sub
                  (((b.position.sub o.position).normalize Real.sqrt).mul
                    ((24 - (b.position.sub o.position).length Real.sqrt) / 2))
              else o.position }) := by
  unfold Ball.checkCollision
  dsimp only
  have c1 : (b.position.sub o.position).length Real.sqrt < 2.1 * ((BALL_RADIUS : ℤ) : ℝ)
      ∧ (b.position.sub o.position).length Real.sqrt > 0 := by
    simp only [BALL_RADIUS]
    norm_num at hd1 hd2 ⊢
    constructor <;> linarith
  have c2 : ¬ (b.velocity.sub o.velocity).dot ((b.position.sub o.position).normalize Real.sqrt)
      ≥ 0 := by
    norm_num at hv ⊢
    linarith
  have c3 : ¬ |(b.velocity.sub o.velocity).dot ((b.position.sub o.position).normalize Real.sqrt)|
      < MIN_COLLISION_SPEED ℝ := by
    rw [abs_of_neg (not_le.1 c2)]
    simp only [MIN_COLLISION_SPEED]
    linarith
  simp only [hb, ho, Bool.or_self, Bool.false_eq_true, if_false, c1, and_self, if_true, c2, c3]
  by_cases h24 : (b.position.sub o.position).length Real.sqrt < 24
  · have : 2 * ((BALL_RADIUS : ℤ) : ℝ) - (b.position.sub o.position).length Real.sqrt > 0 := by
      simp only [BALL_RADIUS]
      norm_num
      linarith
    simp only [this, if_true, h24]
    simp only [Vector2D.mul, Vector2D.add, Vector2D.sub, ELASTICITY, BALL_RADIUS]
    norm_num
    constructor <;> ring
  · have : ¬ 2 * ((BALL_RADIUS : ℤ) : ℝ) - (b.position.sub o.position).length Real.sqrt > 0 := by
      simp only [BALL_RADIUS]
      norm_num
      linarith
    simp only [this, if_false, h24]
    simp only [Vector2D.mul, Vector2D.add, Vector2D.sub, ELASTICITY]
    norm_num

end Collision

section CollisionTrigger

/-- The trigger of `checkCollision` as the code computes it: a response is
computed exactly when both balls are unpocketed, the centre distance `d`
satisfies `0.1 < d < 25.2`, and the relative velocity projected on
`(this.position - other.position) / d` is at most `-0.1`. -/
theorem checkCollision_true_iff (b o : Ball ℝ) :
    (b.checkCollision Real.sqrt o).1 = true ↔
      (b.isPocketed = false ∧ o.isPocketed = false ∧
        0.1 < (b.position.sub o.position).length Real.sqrt ∧
        (b.position.sub o.position).length Real.sqrt < 25.2 ∧
        (b.velocity.sub o.velocity).dot
            ⟨(b.position.sub o.position).x / (b.position.sub o.position).length Real.sqrt,
              (b.position.sub o.position).y / (b.position.sub o.position).length Real.sqrt⟩
          ≤ -0.1) := by
  by_cases hd1 : 0.1 < (b.position.sub o.position).length Real.sqrt
  · rw [← normalize_of_gt _ hd1]
    by_cases h : b.isPocketed = false ∧ o.isPocketed = false ∧
        0.1 < (b.position.sub o.position).length Real.sqrt ∧
        (b.position.sub o.position).length Real.sqrt < 25.2 ∧
        (b.velocity.sub o.velocity).dot ((b.position.sub o.position).normalize Real.sqrt)
          ≤ -0.1
    · rw [checkCollision_hit b o h.1 h.2.1 h.2.2.1 h.2.2.2.1 h.2.2.2.2]
      simp only [true_iff]
      exact h
    · rw [checkCollision_miss b o h]
      simp only [Bool.false_eq_true, false_iff]
      exact h
  · rw [checkCollision_miss b o (fun h => hd1 h.2.2.1)]
    simp only [Bool.false_eq_true, false_iff]
    exact fun h => hd1 h.2.2.1

/-- C6, the code at the failing input: two unpocketed balls whose centres are
0.05 apart, the first moving at (-10, 0) towards the second.  The centre
distance is strictly between 0 and 25.2 and the relative velocity projected on
the unit centre-to-centre normal is -10, at most -0.1, yet `checkCollision`
returns false and changes neither ball. -/
theorem collision_trigger_near_coincident :
    (0 : ℝ) < (({ (Ball.new (100 + 1 / 20) 100 1 BallType.SOLID 0 0 : Ball ℝ) with
          velocity := ⟨-10, 0⟩ } : Ball ℝ).position.sub
        (Ball.new 100 100 2 BallType.SOLID 0 0 : Ball ℝ).position).length Real.sqrt ∧
    (({ (Ball.new (100 + 1 / 20) 100 1 BallType.SOLID 0 0 : Ball ℝ) with
          velocity := ⟨-10, 0⟩ } : Ball ℝ).position.sub
        (Ball.new 100 100 2 BallType.SOLID 0 0 : Ball ℝ).position).length Real.sqrt < 25.2 ∧
    (({ (Ball.new (100 + 1 / 20) 100 1 BallType.SOLID 0 0 : Ball ℝ) with
          velocity := ⟨-10, 0⟩ } : Ball ℝ).velocity.sub
        (Ball.new 100 100 2 BallType.SOLID 0 0 : Ball ℝ).velocity).dot
      ⟨(100 + 1 / 20 - 100) / (1 / 20), (100 - 100) / (1 / 20)⟩ ≤ -0.1 ∧
    ({ (Ball.new (100 + 1 / 20) 100 1 BallType.SOLID 0 0 : Ball ℝ) with
          velocity := ⟨-10, 0⟩ } : Ball ℝ).checkCollision Real.sqrt
        (Ball.new 100 100 2 BallType.SOLID 0 0)
      = (false,
          { (Ball.new (100 + 1 / 20) 100 1 BallType.SOLID 0 0 : Ball ℝ) with
            velocity := ⟨-10, 0⟩ },
          Ball.new 100 100 2 BallType.SOLID 0 0) := by
  have hd : (({ (Ball.new (100 + 1 / 20) 100 1 BallType.SOLID 0 0 : Ball ℝ) with
          velocity := ⟨-10, 0⟩ } : Ball ℝ).position.sub
        (Ball.new 100 100 2 BallType.SOLID 0 0 : Ball ℝ).position).length Real.sqrt
      = 1 / 20 := by
    simp only [Vector2D.length, Vector2D.sub, Ball.new]
    rw [show ((100 : ℝ) + 1 / 20 - 100) * (100 + 1 / 20 - 100) + (100 - 100) * (100 - 100)
      = (1 / 20) ^ 2 by norm_num]
    exact Real.sqrt_sq (by norm_num)
  refine ⟨?_, ?_, ?_, ?_⟩
  · rw [hd]; norm_num
  · rw [hd]; norm_num
  · norm_num [Vector2D.dot, Vector2D.sub, Ball.new]
  · apply checkCollision_miss
    intro h
    rw [hd] at h
    norm_num at h

end CollisionTrigger

section CollisionResponse

theorem checkCollision_true_conds (b o : Ball ℝ)
    (h : (b.checkCollision Real.sqrt o).1 = true) :
    b.isPocketed = false ∧ o.isPocketed = false ∧
      0.1 < (b.position.sub o.position).length Real.sqrt ∧
      (b.position.sub o.position).length Real.sqrt < 25.2 ∧
      (b.velocity.sub o.velocity).dot ((b.position.sub o.position).normalize Real.sqrt)
        ≤ -0.1 := by
  by_contra hc
  rw [checkCollision_miss b o hc] at h
  simp at h

/-- C7: whenever `checkCollision` returns true, the normal `n` it used is a unit
vector, the relative velocity along `n` afterwards is `-0.85` times the relative
velocity along `n` before, so the squared normal closing speed is multiplied by
`0.7225` and strictly decreases, and the component of each ball's velocity
perpendicular to `n` is unchanged. -/
theorem inelastic_response (b o : Ball ℝ) (h : (b.checkCollision Real.sqrt o).1 = true) :
    ((b.position.sub o.position).normalize Real.sqrt).dot
        ((b.position.sub o.position).normalize Real.sqrt) = 1 ∧
    ((b.checkCollision Real.sqrt o).2.1.velocity.sub
          (b.checkCollision Real.sqrt o).2.2.velocity).dot
        ((b.position.sub o.position).normalize Real.sqrt)
      = -0.85 * (b.velocity.sub o.velocity).dot
          ((b.position.sub o.position).normalize Real.sqrt) ∧
    (((b.checkCollision Real.sqrt o).2.1.velocity.sub
          (b.checkCollision Real.sqrt o).2.2.velocity).dot
        ((b.position.sub o.position).normalize Real.sqrt)) ^ 2
      = 0.7225 * ((b.velocity.sub o.velocity).dot
          ((b.position.sub o.position).normalize Real.sqrt)) ^ 2 ∧
    (((b.checkCollision Real.sqrt o).2.1.velocity.sub
          (b.checkCollision Real.sqrt o).2.2.velocity).dot
        ((b.position.sub o.position).normalize Real.sqrt)) ^ 2
      < ((b.velocity.sub o.velocity).dot
          ((b.position.sub o.position).normalize Real.sqrt)) ^ 2 ∧
    (b.checkCollision Real.sqrt o).2.1.velocity.dot
        ((b.position.sub o.position).normalize Real.sqrt).perpendicular
      = b.velocity.dot ((b.position.sub o.position).normalize Real.sqrt).perpendicular ∧
    (b.checkCollision Real.sqrt o).2.2.velocity.dot
        ((b.position.sub o.position).normalize Real.sqrt).perpendicular
      = o.velocity.dot ((b.position.sub o.position).normalize Real.sqrt).perpendicular := by
  obtain ⟨hb, ho, hd1, hd2, hv⟩ := checkCollision_true_conds b o h
  have hn := normalize_dot_self _ hd1
  rw [checkCollision_hit b o hb ho hd1 hd2 hv]
  generalize (b.position.sub o.position).normalize Real.sqrt = n at hn hv ⊢
  obtain ⟨nx, ny⟩ := n
  simp only [Vector2D.dot, Vector2D.sub, Vector2D.add, Vector2D.mul,
    Vector2D.perpendicular] at hn hv ⊢
  have key : (b.velocity.x + nx * (-(1 + 0.85) * ((b.velocity.x - o.velocity.x) * nx
        + (b.velocity.y - o.velocity.y) * ny) / 2)
      - (o.velocity.x - nx * (-(1 + 0.85) * ((b.velocity.x - o.velocity.x) * nx
        + (b.velocity.y - o.velocity.y) * ny) / 2))) * nx
      + (b.velocity.y + ny * (-(1 + 0.85) * ((b.velocity.x - o.velocity.x) * nx
        + (b.velocity.y - o.velocity.y) * ny) / 2)
      - (o.velocity.y - ny * (-(1 + 0.85) * ((b.velocity.x - o.velocity.x) * nx
        + (b.velocity.y - o.velocity.y) * ny) / 2))) * ny
      = -0.85 * ((b.velocity.x - o.velocity.x) * nx + (b.velocity.y - o.velocity.y) * ny) := by
    have e : ∀ vn : ℝ, (b.velocity.x + nx * (-(1 + 0.85) * vn / 2)
        - (o.velocity.x - nx * (-(1 + 0.85) * vn / 2))) * nx
        + (b.velocity.y + ny * (-(1 + 0.85) * vn / 2)
        - (o.velocity.y - ny * (-(1 + 0.85) * vn / 2))) * ny
        = ((b.velocity.x - o.velocity.x) * nx + (b.velocity.y - o.velocity.y) * ny)
          - (1 + 0.85) * vn * (nx * nx + ny * ny) := by
      intro vn
      ring
    rw [e, hn]
    ring
  refine ⟨hn, key, ?_, ?_, ?_, ?_⟩
  · rw [key]
    ring
  · rw [key]
    have hneg : (b.velocity.x - o.velocity.x) * nx + (b.velocity.y - o.velocity.y) * ny < 0 := by
      norm_num at hv ⊢
      linarith
    nlinarith [mul_pos_of_neg_of_neg hneg hneg]
  · ring
  · ring

/-- Two balls 20 apart on a horizontal line, the left one moving right at speed 5. -/
theorem inelastic_response_witness :
    ((({ (Ball.new 100 100 1 BallType.SOLID 0 0 : Ball ℝ) with
            velocity := ⟨5, 0⟩ } : Ball ℝ).checkCollision Real.sqrt
          (Ball.new 120 100 2 BallType.SOLID 0 0)).2.1.velocity.sub
        (({ (Ball.new 100 100 1 BallType.SOLID 0 0 : Ball ℝ) with
            velocity := ⟨5, 0⟩ } : Ball ℝ).checkCollision Real.sqrt
          (Ball.new 120 100 2 BallType.SOLID 0 0)).2.2.velocity).dot
      ((({ (Ball.new 100 100 1 BallType.SOLID 0 0 : Ball ℝ) with
            velocity := ⟨5, 0⟩ } : Ball ℝ).position.sub
          (Ball.new 120 100 2 BallType.SOLID 0 0 : Ball ℝ).position).normalize Real.sqrt)
      = -0.85 * (({ (Ball.new 100 100 1 BallType.SOLID 0 0 : Ball ℝ) with
            velocity := ⟨5, 0⟩ } : Ball ℝ).velocity.sub
          (Ball.new 120 100 2 BallType.SOLID 0 0 : Ball ℝ).velocity).dot
        ((({ (Ball.new 100 100 1 BallType.SOLID 0 0 : Ball ℝ) with
            velocity := ⟨5, 0⟩ } : Ball ℝ).position.sub
          (Ball.new 120 100 2 BallType.SOLID 0 0 : Ball ℝ).position).normalize Real.sqrt) :=
  (inelastic_response
    { (Ball.new 100 100 1 BallType.SOLID 0 0 : Ball ℝ) with velocity := ⟨5, 0⟩ }
    (Ball.new 120 100 2 BallType.SOLID 0 0)
    (by
      have hd : (({ (Ball.new 100 100 1 BallType.SOLID 0 0 : Ball ℝ) with
              velocity := ⟨5, 0⟩ } : Ball ℝ).position.sub
            (Ball.new 120 100 2 BallType.SOLID 0 0 : Ball ℝ).position).length Real.sqrt
          = 20 := by
        simp only [Vector2D.length, Vector2D.sub, Ball.new]
        rw [show ((100 : ℝ) - 120) * (100 - 120) + (100 - 100) * (100 - 100) = 20 ^ 2 by
          norm_num]
        exact Real.sqrt_sq (by norm_num)
      rw [checkCollision_true_iff, hd]
      norm_num [Ball.new, Vector2D.dot, Vector2D.sub])).2.1

end CollisionResponse

section Overlap

/-- The positional correction as the code performs it: for two unpocketed balls
whose centre distance `d` satisfies `0.1 < d < 24` and whose closing speed along
the centre-to-centre axis is at least `0.1`, the centre distance after
`checkCollision` is exactly 24. -/
theorem overlap_resolved_code (b o : Ball ℝ)
    (hb : b.isPocketed = false) (ho : o.isPocketed = false)
    (hd1 : 0.1 < (b.position.sub o.position).length Real.sqrt)
    (hd2 : (b.position.sub o.position).length Real.sqrt < 24)
    (hv : (b.velocity.sub o.velocity).dot
        ⟨(b.position.sub o.position).x / (b.position.sub o.position).length Real.sqrt,
          (b.position.sub o.position).y / (b.position.sub o.position).length Real.sqrt⟩
      ≤ -0.1) :
    ((b.checkCollision Real.sqrt o).2.1.position.sub
        (b.checkCollision Real.sqrt o).2.2.position).length Real.sqrt = 24 := by
  rw [← normalize_of_gt _ hd1] at hv
  rw [checkCollision_hit b o hb ho hd1 (lt_trans hd2 (by norm_num)) hv]
  simp only [hd2, if_true]
  rw [normalize_of_gt _ hd1]
  have hpos : 0 < (b.position.sub o.position).length Real.sqrt := lt_trans (by norm_num) hd1
  have hsq := length_sq (b.position.sub o.position)
  generalize (b.position.sub o.position).length Real.sqrt = D at hpos hsq ⊢
  simp only [Vector2D.sub, Vector2D.add, Vector2D.mul, Vector2D.length] at hsq ⊢
  have hne : D ≠ 0 := ne_of_gt hpos
  have ex : b.position.x + (b.position.x - o.position.x) / D * ((24 - D) / 2)
      - (o.position.x - (b.position.x - o.position.x) / D * ((24 - D) / 2))
      = (b.position.x - o.position.x) * (24 / D) := by
    field_simp
    ring
  have ey : b.position.y + (b.position.y - o.position.y) / D * ((24 - D) / 2)
      - (o.position.y - (b.position.y - o.position.y) / D * ((24 - D) / 2))
      = (b.position.y - o.position.y) * (24 / D) := by
    field_simp
    ring
  rw [ex, ey]
  have e24 : (b.position.x - o.position.x) * (24 / D) * ((b.position.x - o.position.x) * (24 / D))
      + (b.position.y - o.position.y) * (24 / D) * ((b.position.y - o.position.y) * (24 / D))
      = 24 ^ 2 := by
    have : (b.position.x - o.position.x) * (24 / D) * ((b.position.x - o.position.x) * (24 / D))
        + (b.position.y - o.position.y) * (24 / D) * ((b.position.y - o.position.y) * (24 / D))
        = ((b.position.x - o.position.x) * (b.position.x - o.position.x)
          + (b.position.y - o.position.y) * (b.position.y - o.position.y)) * (24 / D) ^ 2 := by
      ring
    rw [this, ← hsq]
    field_simp
    ring
  rw [e24]
  exact Real.sqrt_sq (by norm_num)

/-- C8, the code at the failing input: two unpocketed balls whose centres are
0.05 apart (so `0 < d < 24`), closing at speed 10 along the centre-to-centre
axis.  After `checkCollision` the centre distance is still 0.05: the overlap is
not resolved. -/
theorem overlap_unresolved_near_coincident :
    ((({ (Ball.new (100 + 1 / 20) 100 1 BallType.SOLID 0 0 : Ball ℝ) with
            velocity := ⟨-10, 0⟩ } : Ball ℝ).checkCollision Real.sqrt
          (Ball.new 100 100 2 BallType.SOLID 0 0)).2.1.position.sub
        (({ (Ball.new (100 + 1 / 20) 100 1 BallType.SOLID 0 0 : Ball ℝ) with
            velocity := ⟨-10, 0⟩ } : Ball ℝ).checkCollision Real.sqrt
          (Ball.new 100 100 2 BallType.SOLID 0 0)).2.2.position).length Real.sqrt = 1 / 20 ∧
    (({ (Ball.new (100 + 1 / 20) 100 1 BallType.SOLID 0 0 : Ball ℝ) with
          velocity := ⟨-10, 0⟩ } : Ball ℝ).position.sub
        (Ball.new 100 100 2 BallType.SOLID 0 0 : Ball ℝ).position).length Real.sqrt = 1 / 20 ∧
    (({ (Ball.new (100 + 1 / 20) 100 1 BallType.SOLID 0 0 : Ball ℝ) with
          velocity := ⟨-10, 0⟩ } : Ball ℝ).velocity.sub
        (Ball.new 100 100 2 BallType.SOLID 0 0 : Ball ℝ).velocity).dot
      ⟨(100 + 1 / 20 - 100) / (1 / 20), (100 - 100) / (1 / 20)⟩ = -10 := by
  have hd : (({ (Ball.new (100 + 1 / 20) 100 1 BallType.SOLID 0 0 : Ball ℝ) with
          velocity := ⟨-10, 0⟩ } : Ball ℝ).position.sub
        (Ball.new 100 100 2 BallType.SOLID 0 0 : Ball ℝ).position).length Real.sqrt
      = 1 / 20 := by
    simp only [Vector2D.length, Vector2D.sub, Ball.new]
    rw [show ((100 : ℝ) + 1 / 20 - 100) * (100 + 1 / 20 - 100) + (100 - 100) * (100 - 100)
      = (1 / 20) ^ 2 by norm_num]
    exact Real.sqrt_sq (by norm_num)
  have hmiss : ({ (Ball.new (100 + 1 / 20) 100 1 BallType.SOLID 0 0 : Ball ℝ) with
          velocity := ⟨-10, 0⟩ } : Ball ℝ).checkCollision Real.sqrt
        (Ball.new 100 100 2 BallType.SOLID 0 0)
      = (false,
          { (Ball.new (100 + 1 / 20) 100 1 BallType.SOLID 0 0 : Ball ℝ) with
            velocity := ⟨-10, 0⟩ },
          Ball.new 100 100 2 BallType.SOLID 0 0) := by
    apply checkCollision_miss
    intro h
    rw [hd] at h
    norm_num at h
  refine ⟨?_, hd, ?_⟩
  · rw [hmiss]
    exact hd
  · norm_num [Vector2D.dot, Vector2D.sub, Ball.new]

end Overlap

section Speed

theorem length_le_of_sq_le (u v : Vector2D ℝ) (hx : u.x * u.x ≤ v.x * v.x)
    (hy : u.y * u.y ≤ v.y * v.y) : u.length Real.sqrt ≤ v.length Real.sqrt :=
  Real.sqrt_le_sqrt (add_le_add hx hy)

theorem damping_bounds (dt : ℝ) (hdt : 0 ≤ dt) :
    0 ≤ Real.rpow (FRICTION ℝ) (dt * 60.0) ∧ Real.rpow (FRICTION ℝ) (dt * 60.0) ≤ 1 := by
  have h0 : (0 : ℝ) ≤ FRICTION ℝ := by unfold FRICTION; norm_num
  have h1 : FRICTION ℝ ≤ 1 := by unfold FRICTION; norm_num
  have hz : (0 : ℝ) ≤ dt * 60.0 := mul_nonneg hdt (by norm_num)
  exact ⟨Real.rpow_nonneg h0 _, Real.rpow_le_one h0 h1 hz⟩

theorem update_velocity (sqrt : ℝ → ℝ) (pow : ℝ → ℝ → ℝ) (dt : ℝ) (b : Ball ℝ) :
    (b.update sqrt pow dt).velocity
      = if b.isPocketed then b.velocity
        else if (b.velocity.mul (pow (FRICTION ℝ) (dt * 60.0))).length sqrt < 0.1 then ⟨0, 0⟩
        else b.velocity.mul (pow (FRICTION ℝ) (dt * 60.0)) := by
  unfold Ball.update
  dsimp only
  split_ifs <;> rfl

theorem update_velocity_sq (dt : ℝ) (b : Ball ℝ) (hdt : 0 ≤ dt) :
    (b.update Real.sqrt Real.rpow dt).velocity.x * (b.update Real.sqrt Real.rpow dt).velocity.x
        ≤ b.velocity.x * b.velocity.x ∧
    (b.update Real.sqrt Real.rpow dt).velocity.y * (b.update Real.sqrt Real.rpow dt).velocity.y
        ≤ b.velocity.y * b.velocity.y := by
  obtain ⟨h0, h1⟩ := damping_bounds dt hdt
  rw [update_velocity]
  generalize Real.rpow (FRICTION ℝ) (dt * 60.0) = k at h0 h1
  have hk : k * k ≤ 1 := by nlinarith
  split_ifs
  · exact ⟨le_refl _, le_refl _⟩
  · simp only [mul_zero]
    exact ⟨mul_self_nonneg _, mul_self_nonneg _⟩
  · simp only [Vector2D.mul]
    constructor
    · nlinarith [mul_self_nonneg b.velocity.x]
    · nlinarith [mul_self_nonneg b.velocity.y]

theorem checkBoundaryCollision_velocity_sq (b : Ball ℝ) :
    (b.checkBoundaryCollision Real.sqrt).velocity.x * (b.checkBoundaryCollision Real.sqrt).velocity.x
        ≤ b.velocity.x * b.velocity.x ∧
    (b.checkBoundaryCollision Real.sqrt).velocity.y * (b.checkBoundaryCollision Real.sqrt).velocity.y
        ≤ b.velocity.y * b.velocity.y := by
  have e : ∀ v : ℝ, -v * ELASTICITY ℝ * (-v * ELASTICITY ℝ) ≤ v * v := by
    intro v
    unfold ELASTICITY
    nlinarith [mul_self_nonneg v]
  unfold Ball.checkBoundaryCollision
  dsimp only
  split_ifs <;> first
    | exact ⟨le_refl _, le_refl _⟩
    | exact ⟨e _, le_refl _⟩
    | exact ⟨le_refl _, e _⟩
    | exact ⟨e _, e _⟩

/-- C9: for every ball, pocketed or not, and every `dt ≥ 0`, the velocity
magnitude after `Ball::update(dt)` followed by `checkBoundaryCollision()` is at
most the velocity magnitude before. -/
theorem speed_non_amplifying (dt : ℝ) (b : Ball ℝ) (hdt : 0 ≤ dt) :
    ((b.update Real.sqrt Real.rpow dt).checkBoundaryCollision Real.sqrt).velocity.length Real.sqrt
      ≤ b.velocity.length Real.sqrt := by
  have h1 := update_velocity_sq dt b hdt
  have h2 := checkBoundaryCollision_velocity_sq (b.update Real.sqrt Real.rpow dt)
  exact length_le_of_sq_le _ _ (le_trans h2.1 h1.1) (le_trans h2.2 h1.2)

/-- A ball at (400, 300) moving at (30, 40), stepped by one frame of 1/60 s. -/
theorem speed_non_amplifying_witness :
    ((({ (Ball.new 400 300 1 BallType.SOLID 0 0 : Ball ℝ) with
          velocity := ⟨30, 40⟩ } : Ball ℝ).update Real.sqrt Real.rpow
        (1 / 60)).checkBoundaryCollision Real.sqrt).velocity.length Real.sqrt
      ≤ ({ (Ball.new 400 300 1 BallType.SOLID 0 0 : Ball ℝ) with
          velocity := ⟨30, 40⟩ } : Ball ℝ).velocity.length Real.sqrt :=
  speed_non_amplifying (1 / 60)
    { (Ball.new 400 300 1 BallType.SOLID 0 0 : Ball ℝ) with velocity := ⟨30, 40⟩ }
    (by norm_num)

end Speed

section Launch

theorem length_mul (v : Vector2D ℝ) (c : ℝ) :
    (v.mul c).length Real.sqrt = |c| * v.length Real.sqrt := by
  simp only [Vector2D.length, Vector2D.mul]
  rw [show v.x * c * (v.x * c) + v.y * c * (v.y * c) = c ^ 2 * (v.x * v.x + v.y * v.y) by ring,
    Real.sqrt_mul (sq_nonneg c), Real.sqrt_sq_eq_abs]

theorem normalize_length_of_gt (v : Vector2D ℝ) (h : 0.1 < v.length Real.sqrt) :
    (v.normalize Real.sqrt).length Real.sqrt = 1 := by
  have hn := normalize_dot_self v h
  simp only [Vector2D.dot] at hn
  simp only [Vector2D.length, hn, Real.sqrt_one]

theorem normalize_length_le_one (v : Vector2D ℝ) :
    (v.normalize Real.sqrt).length Real.sqrt ≤ 1 := by
  by_cases h : 0.1 < v.length Real.sqrt
  · exact le_of_eq (normalize_length_of_gt v h)
  · rw [normalize_of_le v (not_lt.1 h)]
    simp [Vector2D.length]

theorem launchCue_velocity (a : Vector2D ℝ) (p : ℝ) (cue : Ball ℝ) :
    (launchCue Real.sqrt a p cue).velocity
      = if 5000 < (((a.normalize Real.sqrt).mul p).mul 200).length Real.sqrt then
          ((((a.normalize Real.sqrt).mul p).mul 200).normalize Real.sqrt).mul 5000
        else ((a.normalize Real.sqrt).mul p).mul 200 := by
  simp only [launchCue, MAX_CUE_SPEED, SHOT_MULTIPLIER, gt_iff_lt]
  norm_num

/-- C10: when the launch fires (aiming, power `p > 0`, cue ball unpocketed and
at rest) with aim vector `a`, the cue ball's velocity becomes
`normalize(a) * p * 200`, replaced by its rescaling to magnitude 5000 in the
same direction when its magnitude exceeds 5000; `shotInProgress` becomes true
and `pocketOccurredThisShot` false.  For a unit aim vector and `p ≤ 20` the
launch speed is exactly `200 * p = min(200 * p, 5000)`, and for every aim vector
and power the launch speed is at most 5000. -/
theorem launch_spec (g : Game ℝ) (cue : Ball ℝ) (rest : List (Ball ℝ)) (a : Vector2D ℝ) (p : ℝ)
    (hballs : g.balls = cue :: rest) (ha : g.aimDirection = a) (hpow : g.shotPower = p)
    (haim : g.aiming = true) (hp : 0 < p) (hcue : cue.isPocketed = false)
    (hrest : cue.velocity.length Real.sqrt < 0.1) :
    handleLButtonUp Real.sqrt g
      = some { g with
          balls := launchCue Real.sqrt a p cue :: rest
          aiming := false
          shotPower := 0
          shotInProgress := true
          pocketOccurredThisShot := false } ∧
    (launchCue Real.sqrt a p cue).velocity
      = (if 5000 < (((a.normalize Real.sqrt).mul p).mul 200).length Real.sqrt then
          ((((a.normalize Real.sqrt).mul p).mul 200).normalize Real.sqrt).mul 5000
        else ((a.normalize Real.sqrt).mul p).mul 200) ∧
    (5000 < (((a.normalize Real.sqrt).mul p).mul 200).length Real.sqrt →
      (launchCue Real.sqrt a p cue).velocity
          = (((a.normalize Real.sqrt).mul p).mul 200).mul
              (5000 / (((a.normalize Real.sqrt).mul p).mul 200).length Real.sqrt) ∧
        (launchCue Real.sqrt a p cue).velocity.length Real.sqrt = 5000) ∧
    (a.length Real.sqrt = 1 → p ≤ 20 →
      (launchCue Real.sqrt a p cue).velocity = (a.mul p).mul 200 ∧
        (launchCue Real.sqrt a p cue).velocity.length Real.sqrt = 200 * p ∧
        200 * p = min (200 * p) 5000) ∧
    (launchCue Real.sqrt a p cue).velocity.length Real.sqrt ≤ 5000 := by
  have hv := launchCue_velocity a p cue
  refine ⟨?_, hv, ?_, ?_, ?_⟩
  · subst ha hpow
    simp [handleLButtonUp, hballs, haim, hp, hcue, hrest]
  · intro hbig
    have hgt : 0.1 < (((a.normalize Real.sqrt).mul p).mul 200).length Real.sqrt :=
      lt_trans (by norm_num) hbig
    rw [hv, if_pos hbig]
    constructor
    · rw [normalize_of_gt _ hgt]
      simp only [Vector2D.mul, Vector2D.mk.injEq]
      constructor <;> ring
    · rw [length_mul, normalize_length_of_gt _ hgt]
      norm_num
  · intro hunit hp20
    have hna : a.normalize Real.sqrt = a := by
      rw [normalize_of_gt a (by rw [hunit]; norm_num), hunit]
      simp
    have hlen : ((a.mul p).mul 200).length Real.sqrt = 200 * p := by
      rw [length_mul, length_mul, hunit, abs_of_pos hp]
      norm_num
    have hsmall : ¬ 5000 < ((a.mul p).mul 200).length Real.sqrt := by
      rw [hlen]
      linarith
    rw [hv, hna, if_neg hsmall]
    refine ⟨rfl, hlen, ?_⟩
    rw [min_eq_left]
    linarith
  · rw [hv]
    split_ifs with hbig
    · have hgt : 0.1 < (((a.normalize Real.sqrt).mul p).mul 200).length Real.sqrt :=
        lt_trans (by norm_num) hbig
      rw [length_mul, normalize_length_of_gt _ hgt]
      norm_num
    · exact not_lt.1 hbig

/-- The launch of the testable property: direction (1, 0) and power 20 from the
initial position give a cue-ball speed of 4000. -/
theorem launch_spec_witness :
    (launchCue Real.sqrt (⟨1, 0⟩ : Vector2D ℝ) 20 (cueBall ℝ)).velocity.length Real.sqrt = 4000 := by
  have h := (launch_spec
    { initGame (⟨1, 0⟩ : Vector2D ℝ) with aiming := true, shotPower := 20, balls := [cueBall ℝ] }
    (cueBall ℝ) [] ⟨1, 0⟩ 20 rfl rfl rfl rfl (by norm_num) rfl
    (by norm_num [cueBall, Ball.new, length_lt_iff])).2.2.2.1
    (by simp [Vector2D.length]) (by norm_num)
  rw [h.2.1]
  norm_num

end Launch

section PocketGeometry

/-- C11, the code evaluated: the six capture pockets built by `initPockets` are
centred at (15, 15), (785, 15), (400, 15), (15, 585), (785, 585), (400, 585),
while `computePocketCenters` returns (23, 23), (777, 23), (400, 23), (23, 577),
(777, 577), (400, 577): the pocket inset of 8 is applied by
`computePocketCenters` only, and no capture pocket is centred at the
corresponding centre. -/
theorem initPockets_centres_differ :
    (initPockets ℝ).map (fun p => p.position)
      = [⟨15, 15⟩, ⟨785, 15⟩, ⟨400, 15⟩, ⟨15, 585⟩, ⟨785, 585⟩, ⟨400, 585⟩] ∧
    computePocketCenters ℝ
      = [⟨23, 23⟩, ⟨777, 23⟩, ⟨400, 23⟩, ⟨23, 577⟩, ⟨777, 577⟩, ⟨400, 577⟩] ∧
    (initPockets ℝ).map (fun p => p.radius) = [25, 25, 25, 25, 25, 25] ∧
    (initPockets ℝ).map (fun p => p.position) ≠ computePocketCenters ℝ := by
  have h1 : (initPockets ℝ).map (fun p => p.position)
      = [⟨15, 15⟩, ⟨785, 15⟩, ⟨400, 15⟩, ⟨15, 585⟩, ⟨785, 585⟩, ⟨400, 585⟩] := by
    simp only [initPockets, Pocket.new, CUSHION_WIDTH, TABLE_WIDTH, TABLE_HEIGHT, List.map]
    norm_num
  have h2 : computePocketCenters ℝ
      = [⟨23, 23⟩, ⟨777, 23⟩, ⟨400, 23⟩, ⟨23, 577⟩, ⟨777, 577⟩, ⟨400, 577⟩] := by
    simp only [computePocketCenters, CUSHION_WIDTH, TABLE_WIDTH, TABLE_HEIGHT, POCKET_INSET]
    norm_num
  refine ⟨h1, h2, ?_, ?_⟩
  · simp [initPockets, Pocket.new, POCKET_RADIUS]
  · rw [h1, h2]
    norm_num

end PocketGeometry

section CaptureZone

/-- C12, the code at the failing input: the position (1, 1) lies inside the
table rectangle and an unpocketed ball there is captured by a pocket of
`initPockets` (its distance to the centre (15, 15) is below 25), yet
`isOverPocketArea` is false at (1, 1) (its distance to (23, 23) exceeds 31), and
`checkBoundaryCollision` moves a ball at (1, 1) to (42, 42) and reflects its
velocity. -/
theorem capture_zone_outside_skip_zone :
    ((0 : ℝ) ≤ 1 ∧ (1 : ℝ) ≤ 800 ∧ (1 : ℝ) ≤ 600) ∧
    ((initPockets ℝ).any fun p =>
      (p.checkPocket Real.sqrt (Ball.new 1 1 1 BallType.SOLID 0 0)).1) = true ∧
    isOverPocketArea Real.sqrt (⟨1, 1⟩ : Vector2D ℝ) = false ∧
    (({ (Ball.new 1 1 1 BallType.SOLID 0 0 : Ball ℝ) with
        velocity := ⟨-20, -20⟩ } : Ball ℝ).checkBoundaryCollision Real.sqrt).position
      = ⟨42, 42⟩ ∧
    (({ (Ball.new 1 1 1 BallType.SOLID 0 0 : Ball ℝ) with
        velocity := ⟨-20, -20⟩ } : Ball ℝ).checkBoundaryCollision Real.sqrt).velocity
      = ⟨17, 17⟩ := by
  have hover : isOverPocketArea Real.sqrt (⟨1, 1⟩ : Vector2D ℝ) = false := by
    norm_num [isOverPocketArea, computePocketCenters, Vector2D.sub, length_lt_iff,
      CUSHION_WIDTH, TABLE_WIDTH, TABLE_HEIGHT, POCKET_INSET, POCKET_RADIUS, BALL_RADIUS]
  refine ⟨by norm_num, ?_, hover, ?_, ?_⟩
  · norm_num [initPockets, Pocket.new, Pocket.checkPocket, Ball.new, Vector2D.sub,
      length_lt_iff, CUSHION_WIDTH, TABLE_WIDTH, TABLE_HEIGHT, POCKET_RADIUS]
  · norm_num [Ball.checkBoundaryCollision, Ball.new, hover, CUSHION_WIDTH, BALL_RADIUS,
      TABLE_WIDTH, TABLE_HEIGHT]
  · norm_num [Ball.checkBoundaryCollision, Ball.new, hover, CUSHION_WIDTH, BALL_RADIUS,
      TABLE_WIDTH, TABLE_HEIGHT, ELASTICITY]

end CaptureZone

section Cushion

theorem isOverPocketArea_iff (pos : Vector2D ℝ) :
    isOverPocketArea Real.sqrt pos = true ↔
      ∃ c ∈ computePocketCenters ℝ, (pos.sub c).length Real.sqrt < 31 := by
  have h31 : ((POCKET_RADIUS : ℤ) : ℝ) + ((BALL_RADIUS : ℤ) : ℝ) * 0.5 = 31 := by
    simp only [POCKET_RADIUS, BALL_RADIUS]
    norm_num
  unfold isOverPocketArea
  simp only [List.any_eq_true, decide_eq_true_eq, h31]

/-- C13: a ball that is pocketed, or whose centre is strictly within
`25 + 0.5 * 12 = 31` of one of the six `computePocketCenters` centres, is left
unchanged by `checkBoundaryCollision` (position, velocity and every other
field), wherever it is relative to the cushion lines. -/
theorem cushion_skip (b : Ball ℝ)
    (h : b.isPocketed = true ∨
      ∃ c ∈ computePocketCenters ℝ, (b.position.sub c).length Real.sqrt < 31) :
    b.checkBoundaryCollision Real.sqrt = b ∧
    (b.checkBoundaryCollision Real.sqrt).position = b.position ∧
    (b.checkBoundaryCollision Real.sqrt).velocity = b.velocity := by
  have hb : b.checkBoundaryCollision Real.sqrt = b := by
    unfold Ball.checkBoundaryCollision
    rcases h with h | h
    · simp [h]
    · have ho := (isOverPocketArea_iff b.position).2 h
      simp [ho]
  rw [hb]
  exact ⟨rfl, rfl, rfl⟩

/-- An unpocketed ball at (20, 20) moving at (-50, -50): its edge is beyond the
left and the top cushion line, and it is within 31 of the centre (23, 23). -/
theorem cushion_skip_witness :
    ((20 : ℝ) - 12 < 30) ∧
    (({ (Ball.new 20 20 1 BallType.SOLID 0 0 : Ball ℝ) with
        velocity := ⟨-50, -50⟩ } : Ball ℝ).checkBoundaryCollision Real.sqrt)
      = { (Ball.new 20 20 1 BallType.SOLID 0 0 : Ball ℝ) with velocity := ⟨-50, -50⟩ } :=
  ⟨by norm_num,
    (cushion_skip
      { (Ball.new 20 20 1 BallType.SOLID 0 0 : Ball ℝ) with velocity := ⟨-50, -50⟩ }
      (Or.inr ⟨⟨23, 23⟩, by
          norm_num [computePocketCenters, CUSHION_WIDTH, POCKET_INSET], by
          norm_num [Ball.new, Vector2D.sub, length_lt_iff]⟩)).1⟩

end Cushion

section CushionReflection

theorem checkBoundaryCollision_x (b : Ball ℝ) (hb : b.isPocketed = false)
    (ho : isOverPocketArea Real.sqrt b.position = false) :
    (b.checkBoundaryCollision Real.sqrt).position.x
        = (if b.position.x - 12 < 30 then 42
            else if b.position.x + 12 > 770 then 758 else b.position.x) ∧
    (b.checkBoundaryCollision Real.sqrt).velocity.x
        = (if b.position.x - 12 < 30 then -0.85 * b.velocity.x
            else if b.position.x + 12 > 770 then -0.85 * b.velocity.x else b.velocity.x) := by
  unfold Ball.checkBoundaryCollision
  simp only [hb, ho, Bool.false_eq_true, if_false, BALL_RADIUS, CUSHION_WIDTH, TABLE_WIDTH,
    TABLE_HEIGHT, ELASTICITY]
  norm_num
  split_ifs <;> norm_num <;> ring

theorem checkBoundaryCollision_y (b : Ball ℝ) (hb : b.isPocketed = false)
    (ho : isOverPocketArea Real.sqrt b.position = false) :
    (b.checkBoundaryCollision Real.sqrt).position.y
        = (if b.position.y - 12 < 30 then 42
            else if b.position.y + 12 > 570 then 558 else b.position.y) ∧
    (b.checkBoundaryCollision Real.sqrt).velocity.y
        = (if b.position.y - 12 < 30 then -0.85 * b.velocity.y
            else if b.position.y + 12 > 570 then -0.85 * b.velocity.y else b.velocity.y) := by
  unfold Ball.checkBoundaryCollision
  simp only [hb, ho, Bool.false_eq_true, if_false, BALL_RADIUS, CUSHION_WIDTH, TABLE_WIDTH,
    TABLE_HEIGHT, ELASTICITY]
  norm_num
  split_ifs <;> norm_num <;> ring

/-- C14: for an unpocketed ball whose position is not over a pocket area, after
`checkBoundaryCollision` the position satisfies `42 ≤ x ≤ 758` and
`42 ≤ y ≤ 558`; on each axis independently, if the ball's edge crossed a cushion
line (`x - 12 < 30` or `x + 12 > 770`; `y - 12 < 30` or `y + 12 > 570`) the
position component is the cushion boundary (42 or 758; 42 or 558) and the
velocity component is `-0.85` times its old value, and otherwise both
components are unchanged. -/
theorem cushion_reflection (b : Ball ℝ) (hb : b.isPocketed = false)
    (ho : isOverPocketArea Real.sqrt b.position = false) :
    (42 ≤ (b.checkBoundaryCollision Real.sqrt).position.x ∧
      (b.checkBoundaryCollision Real.sqrt).position.x ≤ 758 ∧
      42 ≤ (b.checkBoundaryCollision Real.sqrt).position.y ∧
      (b.checkBoundaryCollision Real.sqrt).position.y ≤ 558) ∧
    (b.position.x - 12 < 30 →
      (b.checkBoundaryCollision Real.sqrt).position.x = 42 ∧
        (b.checkBoundaryCollision Real.sqrt).velocity.x = -0.85 * b.velocity.x) ∧
    (b.position.x + 12 > 770 →
      (b.checkBoundaryCollision Real.sqrt).position.x = 758 ∧
        (b.checkBoundaryCollision Real.sqrt).velocity.x = -0.85 * b.velocity.x) ∧
    (¬ b.position.x - 12 < 30 → ¬ b.position.x + 12 > 770 →
      (b.checkBoundaryCollision Real.sqrt).position.x = b.position.x ∧
        (b.checkBoundaryCollision Real.sqrt).velocity.x = b.velocity.x) ∧
    (b.position.y - 12 < 30 →
      (b.checkBoundaryCollision Real.sqrt).position.y = 42 ∧
        (b.checkBoundaryCollision Real.sqrt).velocity.y = -0.85 * b.velocity.y) ∧
    (b.position.y + 12 > 570 →
      (b.checkBoundaryCollision Real.sqrt).position.y = 558 ∧
        (b.checkBoundaryCollision Real.sqrt).velocity.y = -0.85 * b.velocity.y) ∧
    (¬ b.position.y - 12 < 30 → ¬ b.position.y + 12 > 570 →
      (b.checkBoundaryCollision Real.sqrt).position.y = b.position.y ∧
        (b.checkBoundaryCollision Real.sqrt).velocity.y = b.velocity.y) := by
  obtain ⟨hpx, hvx⟩ := checkBoundaryCollision_x b hb ho
  obtain ⟨hpy, hvy⟩ := checkBoundaryCollision_y b hb ho
  rw [hpx, hvx, hpy, hvy]
  refine ⟨⟨?_, ?_, ?_, ?_⟩, ?_, ?_, ?_, ?_, ?_, ?_⟩
  · split_ifs <;> linarith
  · split_ifs <;> linarith
  · split_ifs <;> linarith
  · split_ifs <;> linarith
  · intro h
    simp [h]
  · intro h
    have h' : ¬ b.position.x - 12 < 30 := by linarith
    simp [h, h']
  · intro h1 h2
    simp [h1, h2]
  · intro h
    simp [h]
  · intro h
    have h' : ¬ b.position.y - 12 < 30 := by linarith
    simp [h, h']
  · intro h1 h2
    simp [h1, h2]

/-- An unpocketed ball at (35, 300) moving at (-100, 20): its left edge is
beyond the left cushion line, and it is far from every pocket. -/
theorem cushion_reflection_witness :
    (({ (Ball.new 35 300 1 BallType.SOLID 0 0 : Ball ℝ) with
        velocity := ⟨-100, 20⟩ } : Ball ℝ).checkBoundaryCollision Real.sqrt).position.x = 42 ∧
    (({ (Ball.new 35 300 1 BallType.SOLID 0 0 : Ball ℝ) with
        velocity := ⟨-100, 20⟩ } : Ball ℝ).checkBoundaryCollision Real.sqrt).velocity.x
      = -0.85 * (-100) :=
  (cushion_reflection
    { (Ball.new 35 300 1 BallType.SOLID 0 0 : Ball ℝ) with velocity := ⟨-100, 20⟩ }
    rfl
    (by
      norm_num [isOverPocketArea, computePocketCenters, Vector2D.sub, length_lt_iff, Ball.new,
        CUSHION_WIDTH, TABLE_WIDTH, TABLE_HEIGHT, POCKET_INSET, POCKET_RADIUS,
        BALL_RADIUS])).2.1
    (by norm_num [Ball.new])

end CushionReflection

section SelfHealing

variable {K : Type} [LinearOrderedField K]

theorem rebuild_of_no_cue (l : List (Ball K)) (h : ∀ b ∈ l, b.number ≠ 0) :
    rebuild l = cueBall K :: l.filter (fun b => !b.toRemove) := by
  have h1 : (l.any fun b => b.toRemove && decide (b.number = 0)) = false := by
    rw [List.any_eq_false]
    intro b hb
    simp [h b hb]
  have h2 : ((l.filter fun b => !b.toRemove).any fun b => decide (b.number = 0)) = false := by
    rw [List.any_eq_false]
    intro b hb
    simp [h b (List.mem_of_mem_filter hb)]
  simp [rebuild, h1, h2]

theorem rebuild_has_cue (l : List (Ball K)) : ∃ b ∈ rebuild l, b.number = 0 := by
  unfold rebuild
  dsimp only
  split_ifs with h1 h2 h2
  · exact ⟨cueBall K, List.mem_cons_self _ _, rfl⟩
  · exact ⟨cueBall K, List.mem_cons_self _ _, rfl⟩
  · exact ⟨cueBall K, List.mem_cons_self _ _, rfl⟩
  · simp only [Bool.not_eq_true', Bool.not_eq_false, List.any_eq_true, decide_eq_true_eq] at h2
    exact h2

omit [LinearOrderedField K] in
theorem no_cue_of_numbers {l l' : List (Ball K)}
    (h : l'.map (fun x => x.number) = l.map (fun x => x.number))
    (hl : ∀ b ∈ l, b.number ≠ 0) : ∀ b ∈ l', b.number ≠ 0 := by
  intro b hb
  have hm : b.number ∈ l'.map (fun x => x.number) := List.mem_map_of_mem _ hb
  rw [h] at hm
  obtain ⟨b0, hb0, e⟩ := List.mem_map.1 hm
  rw [← e]
  exact hl b0 hb0

/-- C15 as amended: for every collection in which no ball at an index `≥ 1` has
number 0 (the cue ball is at index 0, or there is no cue ball at all, or the
collection is empty) and every `dt`, after `updateBalls(dt)` the collection
contains exactly one ball with number 0 and it is at index 0; and for every
collection whatsoever the collection after `updateBalls(dt)` contains at least
one ball with number 0. -/
theorem self_healing_missing_cue (sqrt : K → K) (pow : K → K → K) (dt : K) (g : Game K) :
    ((∀ b ∈ g.balls.tail, b.number ≠ 0) → CueInvariant (updateBalls sqrt pow dt g).balls) ∧
    ∃ b ∈ (updateBalls sqrt pow dt g).balls, b.number = 0 := by
  rw [updateBalls_balls]
  refine ⟨?_, rebuild_has_cue _⟩
  intro h
  have hnum := ballLoop_numbers sqrt pow dt g.pockets g.shotInProgress g.balls
    g.pocketOccurredThisShot
  cases hb : g.balls with
  | nil =>
    rw [hb] at hnum
    have : (ballLoop sqrt pow dt g.pockets g.shotInProgress [] g.pocketOccurredThisShot).1
        = [] := rfl
    rw [this]
    exact ⟨rfl, by simp⟩
  | cons c rest =>
    rw [hb] at h hnum
    simp only [List.tail_cons] at h
    by_cases hc : c.number = 0
    · exact rebuild_invariant _ (CueInvariant_of_numbers hnum ⟨hc, h⟩)
    · have hall : ∀ b ∈ c :: rest, b.number ≠ 0 := by
        intro b hb'
        rcases List.mem_cons.1 hb' with e | e
        · rw [e]; exact hc
        · exact h b e
      have hstep := no_cue_of_numbers hnum hall
      rw [rebuild_of_no_cue _ hstep]
      refine ⟨rfl, ?_⟩
      intro b hb'
      exact hstep b (List.mem_of_mem_filter hb')

/-- A collection with no cue ball: only ball 1, at rest at (400, 300). -/
theorem self_healing_missing_cue_witness :
    CueInvariant
      (updateBalls (fun x : ℚ => x) (fun x _ => x) (1 / 60)
        { initGame (⟨1, 0⟩ : Vector2D ℚ) with
          balls := [Ball.new 400 300 1 BallType.SOLID 0 0] }).balls :=
  (self_healing_missing_cue (fun x : ℚ => x) (fun x _ => x) (1 / 60)
    { initGame (⟨1, 0⟩ : Vector2D ℚ) with
      balls := [Ball.new 400 300 1 BallType.SOLID 0 0] }).1 (by simp)

end SelfHealing

section SelfHealingCounterexample

/-- C15 as stated fails: with the cue ball at index 1, behind ball 1, both at
rest on the table, the collection after `updateBalls(1/60)` still has ball 1 at
index 0, so the cue-ball predicate does not hold. -/
theorem self_healing_counterexample :
    ¬ CueInvariant
      (updateBalls Real.sqrt Real.rpow (1 / 60)
        { initGame (⟨1, 0⟩ : Vector2D ℝ) with
          balls := [Ball.new 400 300 1 BallType.SOLID 0 0, cueBall ℝ] }).balls := by
  have hnum : ((updateBalls Real.sqrt Real.rpow (1 / 60)
        { initGame (⟨1, 0⟩ : Vector2D ℝ) with
          balls := [Ball.new 400 300 1 BallType.SOLID 0 0, cueBall ℝ] }).balls).map
        (fun b => b.number) = [1, 0] := by
    rw [updateBalls_balls]
    norm_num [ballLoop, pocketLoop, initGame, initPockets, Pocket.new, Pocket.checkPocket,
      cueBall, Ball.new, Vector2D.sub, Ball.update, Ball.checkBoundaryCollision,
      isOverPocketArea, computePocketCenters, Vector2D.mul, Vector2D.add, rebuild,
      CUSHION_WIDTH, BALL_RADIUS, TABLE_HEIGHT, TABLE_WIDTH, POCKET_RADIUS,
      POCKET_INSET, FRICTION, length_lt_iff, lt_length_iff]
  intro h
  cases hb : (updateBalls Real.sqrt Real.rpow (1 / 60)
        { initGame (⟨1, 0⟩ : Vector2D ℝ) with
          balls := [Ball.new 400 300 1 BallType.SOLID 0 0, cueBall ℝ] }).balls with
  | nil => rw [hb] at hnum; simp at hnum
  | cons c rest =>
    rw [hb] at hnum h
    simp only [List.map_cons, List.cons.injEq] at hnum
    have := h.1
    rw [hnum.1] at this
    norm_num at this

end SelfHealingCounterexample

section Friction

theorem update_isPocketed (sqrt : ℝ → ℝ) (pow : ℝ → ℝ → ℝ) (dt : ℝ) (b : Ball ℝ) :
    (b.update sqrt pow dt).isPocketed = b.isPocketed := by
  unfold Ball.update
  dsimp only
  split_ifs <;> rfl

theorem damping_add (dt1 dt2 : ℝ) :
    Real.rpow (FRICTION ℝ) ((dt1 + dt2) * 60.0)
      = Real.rpow (FRICTION ℝ) (dt1 * 60.0) * Real.rpow (FRICTION ℝ) (dt2 * 60.0) := by
  have h0 : (0 : ℝ) < FRICTION ℝ := by unfold FRICTION; norm_num
  rw [add_mul]
  exact Real.rpow_add h0 _ _

/-- Friction over exact arithmetic.  With `sqrt` and `pow` the real square root
and the real power, `0.98^(60 (dt1 + dt2)) = 0.98^(60 dt1) * 0.98^(60 dt2)` holds
exactly, and for an unpocketed ball and `dt1 ≥ 0`, `dt2 ≥ 0` the velocity after
`Ball::update(dt1)` followed by `Ball::update(dt2)` equals the velocity after a
single `Ball::update(dt1 + dt2)`, including the cases in which the stop threshold
zeroes the velocity.  This is a statement about real numbers only: in `double`
arithmetic the two sides are computed along different paths (two rounded products
by two rounded powers against one rounded product by one rounded power), about
which it says nothing. -/
theorem friction_exact_arithmetic (dt1 dt2 : ℝ) (b : Ball ℝ)
    (hb : b.isPocketed = false) (h1 : 0 ≤ dt1) (h2 : 0 ≤ dt2) :
    ((b.update Real.sqrt Real.rpow dt1).update Real.sqrt Real.rpow dt2).velocity
      = (b.update Real.sqrt Real.rpow (dt1 + dt2)).velocity := by
  obtain ⟨hk1, hk1'⟩ := damping_bounds dt1 h1
  obtain ⟨hk2, hk2'⟩ := damping_bounds dt2 h2
  rw [update_velocity _ _ dt2, update_velocity _ _ (dt1 + dt2), update_isPocketed,
    update_velocity _ _ dt1, damping_add]
  simp only [hb, Bool.false_eq_true, if_false]
  generalize Real.rpow (FRICTION ℝ) (dt1 * 60.0) = k1 at hk1 hk1'
  generalize Real.rpow (FRICTION ℝ) (dt2 * 60.0) = k2 at hk2 hk2'
  have hmul : b.velocity.mul (k1 * k2) = (b.velocity.mul k1).mul k2 := by
    simp only [Vector2D.mul, Vector2D.mk.injEq]
    constructor <;> ring
  have hlen : ((b.velocity.mul k1).mul k2).length Real.sqrt
      = k2 * (b.velocity.mul k1).length Real.sqrt := by
    rw [length_mul, abs_of_nonneg hk2]
  rw [hmul]
  by_cases hs : (b.velocity.mul k1).length Real.sqrt < 0.1
  · have hs2 : ((b.velocity.mul k1).mul k2).length Real.sqrt < 0.1 := by
      rw [hlen]
      have := length_nonneg (b.velocity.mul k1)
      nlinarith
    have hz : ((⟨0, 0⟩ : Vector2D ℝ).mul k2).length Real.sqrt < 0.1 := by
      simp [Vector2D.mul, Vector2D.length]
      norm_num
    simp only [hs, hs2, hz, if_true]
  · simp only [hs, if_false]

/-- Over the reals: a ball moving at (30, 40), stepped by 1/60 s twice and by
1/30 s once. -/
theorem friction_exact_arithmetic_witness :
    ((({ (Ball.new 400 300 1 BallType.SOLID 0 0 : Ball ℝ) with
          velocity := ⟨30, 40⟩ } : Ball ℝ).update Real.sqrt Real.rpow (1 / 60)).update
        Real.sqrt Real.rpow (1 / 60)).velocity
      = (({ (Ball.new 400 300 1 BallType.SOLID 0 0 : Ball ℝ) with
          velocity := ⟨30, 40⟩ } : Ball ℝ).update Real.sqrt Real.rpow
        (1 / 60 + 1 / 60)).velocity :=
  friction_exact_arithmetic (1 / 60) (1 / 60)
    { (Ball.new 400 300 1 BallType.SOLID 0 0 : Ball ℝ) with velocity := ⟨30, 40⟩ }
    rfl (by norm_num) (by norm_num)

end Friction

section Normalize

/-- C17: `normalize` returns the zero vector for every vector of length strictly
below 0.1 (the zero vector included); for every vector of length strictly above
0.1 it returns the vector divided by its length, which has length 1 and is a
positive multiple of the vector (same direction); and the result always has
length 0 or 1. -/
theorem normalize_spec (v : Vector2D ℝ) :
    (v.length Real.sqrt < 0.1 → v.normalize Real.sqrt = ⟨0, 0⟩) ∧
    ((⟨0, 0⟩ : Vector2D ℝ).normalize Real.sqrt = ⟨0, 0⟩) ∧
    (0.1 < v.length Real.sqrt →
      v.normalize Real.sqrt = ⟨v.x / v.length Real.sqrt, v.y / v.length Real.sqrt⟩ ∧
        (v.normalize Real.sqrt).length Real.sqrt = 1 ∧
        0 < 1 / v.length Real.sqrt ∧
        v.normalize Real.sqrt = v.mul (1 / v.length Real.sqrt)) ∧
    ((v.normalize Real.sqrt).length Real.sqrt = 0 ∨
      (v.normalize Real.sqrt).length Real.sqrt = 1) := by
  have hz : ((⟨0, 0⟩ : Vector2D ℝ)).length Real.sqrt = 0 := by
    simp [Vector2D.length]
  refine ⟨?_, ?_, ?_, ?_⟩
  · intro h
    exact normalize_of_le v (le_of_lt h)
  · apply normalize_of_le
    rw [hz]
    norm_num
  · intro h
    have hpos : 0 < v.length Real.sqrt := lt_trans (by norm_num) h
    refine ⟨normalize_of_gt v h, normalize_length_of_gt v h, one_div_pos.2 hpos, ?_⟩
    rw [normalize_of_gt v h]
    simp only [Vector2D.mul, Vector2D.mk.injEq]
    constructor <;> ring
  · by_cases h : 0.1 < v.length Real.sqrt
    · exact Or.inr (normalize_length_of_gt v h)
    · left
      rw [normalize_of_le v (not_lt.1 h)]
      exact hz

/-- The vector (3, 4), of length 5. -/
theorem normalize_spec_witness :
    ((⟨3, 4⟩ : Vector2D ℝ).normalize Real.sqrt).length Real.sqrt = 1 :=
  ((normalize_spec ⟨3, 4⟩).2.2.1 (by
    rw [lt_length_iff _ (by norm_num)]
    norm_num)).2.1

end Normalize

section Energy

/-- C18: the total kinetic energy `|v1|² + |v2|²` after `checkCollision` is at
most its value before, and strictly smaller whenever `checkCollision` returns
true. -/
theorem collision_energy (b o : Ball ℝ) :
    ((b.checkCollision Real.sqrt o).2.1.velocity.dot (b.checkCollision Real.sqrt o).2.1.velocity
        + (b.checkCollision Real.sqrt o).2.2.velocity.dot
            (b.checkCollision Real.sqrt o).2.2.velocity
      ≤ b.velocity.dot b.velocity + o.velocity.dot o.velocity) ∧
    ((b.checkCollision Real.sqrt o).1 = true →
      (b.checkCollision Real.sqrt o).2.1.velocity.dot (b.checkCollision Real.sqrt o).2.1.velocity
        + (b.checkCollision Real.sqrt o).2.2.velocity.dot
            (b.checkCollision Real.sqrt o).2.2.velocity
      < b.velocity.dot b.velocity + o.velocity.dot o.velocity) := by
  by_cases h : b.isPocketed = false ∧ o.isPocketed = false ∧
      0.1 < (b.position.sub o.position).length Real.sqrt ∧
      (b.position.sub o.position).length Real.sqrt < 25.2 ∧
      (b.velocity.sub o.velocity).dot ((b.position.sub o.position).normalize Real.sqrt)
        ≤ -0.1
  · obtain ⟨hb, ho, hd1, hd2, hv⟩ := h
    have hn := normalize_dot_self _ hd1
    rw [checkCollision_hit b o hb ho hd1 hd2 hv]
    generalize (b.position.sub o.position).normalize Real.sqrt = n at hn hv ⊢
    obtain ⟨nx, ny⟩ := n
    simp only [Vector2D.dot, Vector2D.sub, Vector2D.add, Vector2D.mul] at hn hv ⊢
    have hneg : (b.velocity.x - o.velocity.x) * nx + (b.velocity.y - o.velocity.y) * ny < 0 := by
      norm_num at hv ⊢
      linarith
    have e : ∀ j : ℝ,
        (b.velocity.x + nx * j) * (b.velocity.x + nx * j)
          + (b.velocity.y + ny * j) * (b.velocity.y + ny * j)
          + ((o.velocity.x - nx * j) * (o.velocity.x - nx * j)
            + (o.velocity.y - ny * j) * (o.velocity.y - ny * j))
        = b.velocity.x * b.velocity.x + b.velocity.y * b.velocity.y
          + (o.velocity.x * o.velocity.x + o.velocity.y * o.velocity.y)
          + 2 * j * ((b.velocity.x - o.velocity.x) * nx + (b.velocity.y - o.velocity.y) * ny)
          + 2 * j ^ 2 * (nx * nx + ny * ny) := by
      intro j
      ring
    rw [e, hn]
    generalize (b.velocity.x - o.velocity.x) * nx + (b.velocity.y - o.velocity.y) * ny = vn
      at hneg
    have hsq : 0 < vn * vn := mul_pos_of_neg_of_neg hneg hneg
    have hdrop : 2 * (-(1 + 0.85) * vn / 2) * vn + 2 * (-(1 + 0.85) * vn / 2) ^ 2 * 1
        = -(0.13875 * (vn * vn)) := by ring
    constructor
    · linarith
    · intro _
      linarith
  · rw [checkCollision_miss b o h]
    exact ⟨le_refl _, fun hf => by simp at hf⟩

/-- Two balls 20 apart on a horizontal line, the left one moving right at speed 5. -/
theorem collision_energy_witness :
    (({ (Ball.new 100 100 1 BallType.SOLID 0 0 : Ball ℝ) with
            velocity := ⟨5, 0⟩ } : Ball ℝ).checkCollision Real.sqrt
          (Ball.new 120 100 2 BallType.SOLID 0 0)).2.1.velocity.dot
        (({ (Ball.new 100 100 1 BallType.SOLID 0 0 : Ball ℝ) with
            velocity := ⟨5, 0⟩ } : Ball ℝ).checkCollision Real.sqrt
          (Ball.new 120 100 2 BallType.SOLID 0 0)).2.1.velocity
      + (({ (Ball.new 100 100 1 BallType.SOLID 0 0 : Ball ℝ) with
            velocity := ⟨5, 0⟩ } : Ball ℝ).checkCollision Real.sqrt
          (Ball.new 120 100 2 BallType.SOLID 0 0)).2.2.velocity.dot
        (({ (Ball.new 100 100 1 BallType.SOLID 0 0 : Ball ℝ) with
            velocity := ⟨5, 0⟩ } : Ball ℝ).checkCollision Real.sqrt
          (Ball.new 120 100 2 BallType.SOLID 0 0)).2.2.velocity
      < ({ (Ball.new 100 100 1 BallType.SOLID 0 0 : Ball ℝ) with
            velocity := ⟨5, 0⟩ } : Ball ℝ).velocity.dot
          ({ (Ball.new 100 100 1 BallType.SOLID 0 0 : Ball ℝ) with
            velocity := ⟨5, 0⟩ } : Ball ℝ).velocity
        + (Ball.new 120 100 2 BallType.SOLID 0 0 : Ball ℝ).velocity.dot
          (Ball.new 120 100 2 BallType.SOLID 0 0 : Ball ℝ).velocity :=
  (collision_energy
    { (Ball.new 100 100 1 BallType.SOLID 0 0 : Ball ℝ) with velocity := ⟨5, 0⟩ }
    (Ball.new 120 100 2 BallType.SOLID 0 0)).2
    (by
      have hd : (({ (Ball.new 100 100 1 BallType.SOLID 0 0 : Ball ℝ) with
              velocity := ⟨5, 0⟩ } : Ball ℝ).position.sub
            (Ball.new 120 100 2 BallType.SOLID 0 0 : Ball ℝ).position).length Real.sqrt
          = 20 := by
        simp only [Vector2D.length, Vector2D.sub, Ball.new]
        rw [show ((100 : ℝ) - 120) * (100 - 120) + (100 - 100) * (100 - 100) = 20 ^ 2 by
          norm_num]
        exact Real.sqrt_sq (by norm_num)
      rw [checkCollision_true_iff, hd]
      norm_num [Ball.new, Vector2D.dot, Vector2D.sub])

end Energy

section PositionalCorrection

/-- C19: whenever `checkCollision` returns true, with `d` the centre distance
before and `n` the (unit) normal: if `d < 24` the first ball is moved by
`n * (24 - d) / 2`, the second by the opposite vector, and the centre distance
afterwards is exactly 24; if `24 ≤ d` (then `d < 25.2`) both positions are
unchanged. -/
theorem positional_correction (b o : Ball ℝ) (h : (b.checkCollision Real.sqrt o).1 = true) :
    ((b.position.sub o.position).normalize Real.sqrt).length Real.sqrt = 1 ∧
    ((b.position.sub o.position).length Real.sqrt < 24 →
      (b.checkCollision Real.sqrt o).2.1.position
          = b.position.add (((b.position.sub o.position).normalize Real.sqrt).mul
              ((24 - (b.position.sub o.position).length Real.sqrt) / 2)) ∧
        (b.checkCollision Real.sqrt o).2.2.position
          = o.position.sub (((b.position.sub o.position).normalize Real.sqrt).mul
              ((24 - (b.position.sub o.position).length Real.sqrt) / 2)) ∧
        ((b.checkCollision Real.sqrt o).2.1.position.sub
            (b.checkCollision Real.sqrt o).2.2.position).length Real.sqrt = 24) ∧
    (24 ≤ (b.position.sub o.position).length Real.sqrt →
      (b.position.sub o.position).length Real.sqrt < 25.2 ∧
        (b.checkCollision Real.sqrt o).2.1.position = b.position ∧
        (b.checkCollision Real.sqrt o).2.2.position = o.position) := by
  obtain ⟨hb, ho, hd1, hd2, hv⟩ := checkCollision_true_conds b o h
  refine ⟨normalize_length_of_gt _ hd1, ?_, ?_⟩
  · intro h24
    have hdist := overlap_resolved_code b o hb ho hd1 h24 (by
      rw [← normalize_of_gt _ hd1]
      exact hv)
    refine ⟨?_, ?_, hdist⟩
    · rw [checkCollision_hit b o hb ho hd1 hd2 hv]
      simp only [h24, if_true]
    · rw [checkCollision_hit b o hb ho hd1 hd2 hv]
      simp only [h24, if_true]
  · intro h24
    rw [checkCollision_hit b o hb ho hd1 hd2 hv]
    rw [if_neg (not_lt.2 h24), if_neg (not_lt.2 h24)]
    exact ⟨hd2, rfl, rfl⟩

/-- Two balls 20 apart on a horizontal line, the left one moving right at
speed 5: afterwards their centres are 24 apart. -/
theorem positional_correction_witness :
    ((({ (Ball.new 100 100 1 BallType.SOLID 0 0 : Ball ℝ) with
            velocity := ⟨5, 0⟩ } : Ball ℝ).checkCollision Real.sqrt
          (Ball.new 120 100 2 BallType.SOLID 0 0)).2.1.position.sub
        (({ (Ball.new 100 100 1 BallType.SOLID 0 0 : Ball ℝ) with
            velocity := ⟨5, 0⟩ } : Ball ℝ).checkCollision Real.sqrt
          (Ball.new 120 100 2 BallType.SOLID 0 0)).2.2.position).length Real.sqrt = 24 := by
  have hd : (({ (Ball.new 100 100 1 BallType.SOLID 0 0 : Ball ℝ) with
          velocity := ⟨5, 0⟩ } : Ball ℝ).position.sub
        (Ball.new 120 100 2 BallType.SOLID 0 0 : Ball ℝ).position).length Real.sqrt
      = 20 := by
    simp only [Vector2D.length, Vector2D.sub, Ball.new]
    rw [show ((100 : ℝ) - 120) * (100 - 120) + (100 - 100) * (100 - 100) = 20 ^ 2 by
      norm_num]
    exact Real.sqrt_sq (by norm_num)
  exact ((positional_correction
    { (Ball.new 100 100 1 BallType.SOLID 0 0 : Ball ℝ) with velocity := ⟨5, 0⟩ }
    (Ball.new 120 100 2 BallType.SOLID 0 0)
    (by
      rw [checkCollision_true_iff, hd]
      norm_num [Ball.new, Vector2D.dot, Vector2D.sub])).2.1
    (by rw [hd]; norm_num)).2.2

end PositionalCorrection

section Rebuild

variable {K : Type} [LinearOrderedField K]

theorem pocketLoop_ball_indep (sqrt : K → K) (sip sip' : Bool) (ps : List (Pocket K)) :
    ∀ (b : Ball K) (occ occ' : Bool),
      (pocketLoop sqrt sip ps (b, occ)).1 = (pocketLoop sqrt sip' ps (b, occ')).1 := by
  induction ps with
  | nil => intro b occ occ'; rfl
  | cons p ps ih =>
    intro b occ occ'
    simp only [pocketLoop]
    split_ifs <;> exact ih _ _ _

theorem ballLoop_balls (sqrt : K → K) (pow : K → K → K) (dt : K) (ps : List (Pocket K))
    (sip : Bool) (balls : List (Ball K)) :
    ∀ occ, (ballLoop sqrt pow dt ps sip balls occ).1
      = balls.map fun b =>
          ((pocketLoop sqrt sip ps (b, false)).1.update sqrt pow dt).checkBoundaryCollision
            sqrt := by
  induction balls with
  | nil => intro occ; rfl
  | cons b rest ih =>
    intro occ
    simp only [ballLoop, List.map_cons, ih]
    rw [pocketLoop_ball_indep sqrt sip sip ps b occ false]

theorem rebuild_eq (l : List (Ball K)) :
    rebuild l
      = if (l.any fun b => b.toRemove && decide (b.number = 0))
            || !((l.filter fun b => !b.toRemove).any fun b => decide (b.number = 0)) then
          cueBall K :: l.filter fun b => !b.toRemove
        else l.filter fun b => !b.toRemove := by
  unfold rebuild
  dsimp only
  cases h1 : (l.any fun b => b.toRemove && decide (b.number = 0)) <;>
    cases h2 : ((l.filter fun b => !b.toRemove).any fun b => decide (b.number = 0)) <;>
    simp [h2, cueBall, Ball.new]

omit [LinearOrderedField K] in
theorem rebuild_cond_iff (l : List (Ball K)) :
    ((l.any fun b => b.toRemove && decide (b.number = 0))
        || !((l.filter fun b => !b.toRemove).any fun b => decide (b.number = 0))) = true ↔
      ((∃ b ∈ l, b.number = 0 ∧ b.toRemove = true) ∨
        (∀ b ∈ l, b.toRemove = false → b.number ≠ 0)) := by
  simp only [Bool.or_eq_true, List.any_eq_true, Bool.and_eq_true, decide_eq_true_eq,
    Bool.not_eq_true', List.any_eq_false, List.mem_filter, Bool.not_eq_true, and_imp]
  constructor
  · rintro (⟨b, hb, ht, hn⟩ | h)
    · exact Or.inl ⟨b, hb, hn, ht⟩
    · exact Or.inr h
  · rintro (⟨b, hb, hn, ht⟩ | h)
    · exact Or.inl ⟨b, hb, ht, hn⟩
    · exact Or.inr h

/-- C20: with `stepped` the per-ball updated balls (capture tests, `update`,
`checkBoundaryCollision`) in their original order, the collection after
`updateBalls(dt)` contains no ball with `toRemove = true`; it is the list of the
stepped balls that are not flagged for removal, in order, preceded by one
freshly constructed cue ball (at (82, 300)) exactly when a stepped ball numbered
0 is flagged for removal or no stepped ball numbered 0 survives; and every
non-zero ball number of the new collection is a ball number of the old one. -/
theorem collection_rebuild (sqrt : K → K) (pow : K → K → K) (dt : K) (g : Game K)
    (stepped : List (Ball K))
    (hs : stepped = g.balls.map fun b =>
      ((pocketLoop sqrt g.shotInProgress g.pockets (b, false)).1.update sqrt pow
        dt).checkBoundaryCollision sqrt) :
    (∀ b ∈ (updateBalls sqrt pow dt g).balls, b.toRemove = false) ∧
    (((∃ b ∈ stepped, b.number = 0 ∧ b.toRemove = true) ∨
        (∀ b ∈ stepped, b.toRemove = false → b.number ≠ 0)) →
      (updateBalls sqrt pow dt g).balls
        = cueBall K :: stepped.filter fun b => !b.toRemove) ∧
    (¬((∃ b ∈ stepped, b.number = 0 ∧ b.toRemove = true) ∨
        (∀ b ∈ stepped, b.toRemove = false → b.number ≠ 0)) →
      (updateBalls sqrt pow dt g).balls = stepped.filter fun b => !b.toRemove) ∧
    ((cueBall K).position = ⟨82, 300⟩ ∧ (cueBall K).number = 0 ∧
      (cueBall K).toRemove = false) ∧
    (∀ n : Int, n ≠ 0 → n ∈ (updateBalls sqrt pow dt g).balls.map (fun b => b.number) →
      n ∈ g.balls.map (fun b => b.number)) := by
  have hballs : (updateBalls sqrt pow dt g).balls = rebuild stepped := by
    rw [updateBalls_balls, ballLoop_balls, hs]
  have hnum : stepped.map (fun b => b.number) = g.balls.map (fun b => b.number) := by
    rw [hs, ← ballLoop_balls sqrt pow dt g.pockets g.shotInProgress g.balls
      g.pocketOccurredThisShot]
    exact ballLoop_numbers sqrt pow dt g.pockets g.shotInProgress g.balls _
  have hmem : ∀ b ∈ rebuild stepped,
      b = cueBall K ∨ (b ∈ stepped ∧ b.toRemove = false) := by
    intro b hb
    rw [rebuild_eq] at hb
    split_ifs at hb
    · rcases List.mem_cons.1 hb with e | e
      · exact Or.inl e
      · have := List.mem_filter.1 e
        exact Or.inr ⟨this.1, by simpa using this.2⟩
    · have := List.mem_filter.1 hb
      exact Or.inr ⟨this.1, by simpa using this.2⟩
  rw [hballs]
  refine ⟨?_, ?_, ?_, ⟨cueBall_position, rfl, rfl⟩, ?_⟩
  · intro b hb
    rcases hmem b hb with e | e
    · rw [e]; rfl
    · exact e.2
  · intro hc
    rw [rebuild_eq, if_pos ((rebuild_cond_iff stepped).2 hc)]
  · intro hc
    rw [rebuild_eq, if_neg (fun h => hc ((rebuild_cond_iff stepped).1 h))]
  · intro n hn hmemn
    obtain ⟨b, hb, e⟩ := List.mem_map.1 hmemn
    rcases hmem b hb with e' | e'
    · rw [e'] at e
      exact (hn e.symm).elim
    · rw [← hnum, ← e]
      exact List.mem_map_of_mem _ e'.1

/-- The pocketed cue ball 0.39 s into its animation and ball 1 at rest, stepped
by 0.02 s: the cue ball is flagged, and the new collection starts with a fresh
cue ball. -/
theorem collection_rebuild_witness :
    (updateBalls (fun x : ℚ => x) (fun x _ => x) (1 / 50)
        { initGame (⟨1, 0⟩ : Vector2D ℚ) with
          balls := [{ cueBall ℚ with isPocketed := true, pocketTimer := 39 / 100 },
            Ball.new 400 300 1 BallType.SOLID 0 0] }).balls.head? = some (cueBall ℚ) := by
  have h := (collection_rebuild (fun x : ℚ => x) (fun x _ => x) (1 / 50)
    { initGame (⟨1, 0⟩ : Vector2D ℚ) with
      balls := [{ cueBall ℚ with isPocketed := true, pocketTimer := 39 / 100 },
        Ball.new 400 300 1 BallType.SOLID 0 0] } _ rfl).2.1
    (Or.inl ⟨_, List.mem_cons_self _ _,
      by
        rw [checkBoundaryCollision_number, update_number, pocketLoop_number]
        rfl,
      by
        beta_reduce
        rw [pocketLoop_of_pocketed _ _ _ _ _ rfl]
        norm_num [Ball.checkBoundaryCollision, Ball.update, cueBall, Ball.new]⟩)
  rw [h]
  rfl

end Rebuild

section Integration

theorem update_unpocketed (sqrt : ℝ → ℝ) (pow : ℝ → ℝ → ℝ) (dt : ℝ) (b : Ball ℝ)
    (hb : b.isPocketed = false) :
    b.update sqrt pow dt
      = { b with
          velocity := (b.update sqrt pow dt).velocity
          position :=
            ⟨min 800 (max 0 (b.position.x + (b.update sqrt pow dt).velocity.x * dt)),
              min 600 (max 0 (b.position.y + (b.update sqrt pow dt).velocity.y * dt))⟩ } := by
  have hclamp : ∀ (hi x : ℝ), 0 ≤ hi →
      (if (if x < 0 then 0 else x) > hi then hi else (if x < 0 then 0 else x))
        = min hi (max 0 x) := by
    intro hi x hhi
    by_cases h0 : x < 0
    · simp only [h0, if_true, max_eq_left (le_of_lt h0)]
      rw [if_neg (not_lt.2 hhi), min_eq_right hhi]
    · simp only [h0, if_false, max_eq_right (not_lt.1 h0)]
      by_cases h1 : x > hi
      · rw [if_pos h1, min_eq_left (le_of_lt h1)]
      · rw [if_neg h1, min_eq_right (not_lt.1 h1)]
  rw [update_velocity]
  unfold Ball.update
  simp only [hb, Bool.false_eq_true, if_false, TABLE_WIDTH, TABLE_HEIGHT, Vector2D.add,
    Vector2D.mul]
  rw [hclamp _ _ (by norm_num), hclamp _ _ (by norm_num)]
  norm_num

/-- C21: for an unpocketed ball and every `dt`, `Ball::update(dt)` sets the
velocity to `v * 0.98^(60 * dt)`, replaced by (0, 0) when that damped speed is
strictly below 0.1, and sets the position to the old position plus the new
velocity times `dt`, with `x` clamped into [0, 800] and `y` into [0, 600]; so
the new position lies in the table rectangle, the new speed is 0 or at least
0.1, and `isPocketed`, `toRemove` and `pocketTimer` (and every field other than
position and velocity) are unchanged. -/
theorem integrate_unpocketed (dt : ℝ) (b : Ball ℝ) (hb : b.isPocketed = false) :
    (b.update Real.sqrt Real.rpow dt).velocity
      = (if (b.velocity.mul ((0.98 : ℝ) ^ (60 * dt))).length Real.sqrt < 0.1 then ⟨0, 0⟩
          else b.velocity.mul ((0.98 : ℝ) ^ (60 * dt))) ∧
    (b.update Real.sqrt Real.rpow dt).position
      = ⟨min 800 (max 0
            (b.position.x + (b.update Real.sqrt Real.rpow dt).velocity.x * dt)),
          min 600 (max 0
            (b.position.y + (b.update Real.sqrt Real.rpow dt).velocity.y * dt))⟩ ∧
    (0 ≤ (b.update Real.sqrt Real.rpow dt).position.x ∧
      (b.update Real.sqrt Real.rpow dt).position.x ≤ 800 ∧
      0 ≤ (b.update Real.sqrt Real.rpow dt).position.y ∧
      (b.update Real.sqrt Real.rpow dt).position.y ≤ 600) ∧
    ((b.update Real.sqrt Real.rpow dt).velocity.length Real.sqrt = 0 ∨
      0.1 ≤ (b.update Real.sqrt Real.rpow dt).velocity.length Real.sqrt) ∧
    ((b.update Real.sqrt Real.rpow dt).isPocketed = b.isPocketed ∧
      (b.update Real.sqrt Real.rpow dt).toRemove = b.toRemove ∧
      (b.update Real.sqrt Real.rpow dt).pocketTimer = b.pocketTimer) ∧
    b.update Real.sqrt Real.rpow dt
      = { b with
          velocity := (b.update Real.sqrt Real.rpow dt).velocity
          position := (b.update Real.sqrt Real.rpow dt).position } := by
  have hk : Real.rpow (FRICTION ℝ) (dt * 60.0) = (0.98 : ℝ) ^ (60 * dt) := by
    have h60 : dt * (60.0 : ℝ) = 60 * dt := by norm_num [mul_comm]
    unfold FRICTION
    rw [h60]
    rfl
  have hv : (b.update Real.sqrt Real.rpow dt).velocity
      = (if (b.velocity.mul ((0.98 : ℝ) ^ (60 * dt))).length Real.sqrt < 0.1 then ⟨0, 0⟩
          else b.velocity.mul ((0.98 : ℝ) ^ (60 * dt))) := by
    rw [update_velocity, hk]
    simp [hb]
  have hu := update_unpocketed Real.sqrt Real.rpow dt b hb
  have hp : (b.update Real.sqrt Real.rpow dt).position
      = ⟨min 800 (max 0
            (b.position.x + (b.update Real.sqrt Real.rpow dt).velocity.x * dt)),
          min 600 (max 0
            (b.position.y + (b.update Real.sqrt Real.rpow dt).velocity.y * dt))⟩ := by
    conv_lhs => rw [hu]
  refine ⟨hv, hp, ?_, ?_, ?_, ?_⟩
  · rw [hp]
    refine ⟨?_, min_le_left _ _, ?_, min_le_left _ _⟩
    · exact le_min (by norm_num) (le_max_left _ _)
    · exact le_min (by norm_num) (le_max_left _ _)
  · rw [hv]
    split_ifs with h
    · left
      simp [Vector2D.length]
    · right
      exact not_lt.1 h
  · refine ⟨?_, ?_, ?_⟩
    · conv_lhs => rw [hu]
    · conv_lhs => rw [hu]
    · conv_lhs => rw [hu]
  · conv_lhs => rw [hu]
    rw [← hp]

/-- A ball at (790, 300) moving at (1200, 0), stepped by 1/60 s: the position is
clamped to the table width. -/
theorem integrate_unpocketed_witness :
    (({ (Ball.new 790 300 1 BallType.SOLID 0 0 : Ball ℝ) with
        velocity := ⟨1200, 0⟩ } : Ball ℝ).update Real.sqrt Real.rpow (1 / 60)).position.x
      ≤ 800 :=
  (integrate_unpocketed (1 / 60)
    { (Ball.new 790 300 1 BallType.SOLID 0 0 : Ball ℝ) with velocity := ⟨1200, 0⟩ }
    rfl).2.2.1.2.1

end Integration

section NoCollision

/-- C22: whenever `checkCollision` returns false, both balls are exactly as
before the call (position, velocity, flags and every other field); and a false
return has one of the listed causes: a ball is pocketed, the centre distance is
0 or at least 25.2, the relative velocity along the normal the code uses is
non-negative (separating), or its magnitude is below 0.1. -/
theorem no_collision_untouched (b o : Ball ℝ)
    (h : (b.checkCollision Real.sqrt o).1 = false) :
    (b.checkCollision Real.sqrt o).2.1 = b ∧
    (b.checkCollision Real.sqrt o).2.2 = o ∧
    (b.isPocketed = true ∨ o.isPocketed = true ∨
      (b.position.sub o.position).length Real.sqrt = 0 ∨
      25.2 ≤ (b.position.sub o.position).length Real.sqrt ∨
      0 ≤ (b.velocity.sub o.velocity).dot ((b.position.sub o.position).normalize Real.sqrt) ∨
      |(b.velocity.sub o.velocity).dot ((b.position.sub o.position).normalize Real.sqrt)|
        < 0.1) := by
  have hmiss : ¬(b.isPocketed = false ∧ o.isPocketed = false ∧
      0.1 < (b.position.sub o.position).length Real.sqrt ∧
      (b.position.sub o.position).length Real.sqrt < 25.2 ∧
      (b.velocity.sub o.velocity).dot ((b.position.sub o.position).normalize Real.sqrt)
        ≤ -0.1) := by
    intro hc
    rw [checkCollision_hit b o hc.1 hc.2.1 hc.2.2.1 hc.2.2.2.1 hc.2.2.2.2] at h
    simp at h
  rw [checkCollision_miss b o hmiss]
  refine ⟨rfl, rfl, ?_⟩
  by_cases hb : b.isPocketed = true
  · exact Or.inl hb
  by_cases ho : o.isPocketed = true
  · exact Or.inr (Or.inl ho)
  by_cases hd2 : (b.position.sub o.position).length Real.sqrt < 25.2
  · right; right; right; right
    by_cases hd1 : 0.1 < (b.position.sub o.position).length Real.sqrt
    · have hv : ¬ (b.velocity.sub o.velocity).dot
          ((b.position.sub o.position).normalize Real.sqrt) ≤ -0.1 := by
        intro hv
        exact hmiss ⟨by simpa using hb, by simpa using ho, hd1, hd2, hv⟩
      by_cases hs : 0 ≤ (b.velocity.sub o.velocity).dot
          ((b.position.sub o.position).normalize Real.sqrt)
      · exact Or.inl hs
      · right
        rw [abs_of_neg (not_le.1 hs)]
        norm_num at hv ⊢
        linarith
    · left
      rw [normalize_of_le _ (not_lt.1 hd1)]
      simp [Vector2D.dot]
  · exact Or.inr (Or.inr (Or.inr (Or.inl (not_lt.1 hd2))))

/-- Two balls 20 apart moving away from each other. -/
theorem no_collision_untouched_witness :
    (({ (Ball.new 100 100 1 BallType.SOLID 0 0 : Ball ℝ) with
          velocity := ⟨-5, 0⟩ } : Ball ℝ).checkCollision Real.sqrt
        (Ball.new 120 100 2 BallType.SOLID 0 0)).2.1
      = { (Ball.new 100 100 1 BallType.SOLID 0 0 : Ball ℝ) with velocity := ⟨-5, 0⟩ } := by
  have hd : (({ (Ball.new 100 100 1 BallType.SOLID 0 0 : Ball ℝ) with
          velocity := ⟨-5, 0⟩ } : Ball ℝ).position.sub
        (Ball.new 120 100 2 BallType.SOLID 0 0 : Ball ℝ).position).length Real.sqrt
      = 20 := by
    simp only [Vector2D.length, Vector2D.sub, Ball.new]
    rw [show ((100 : ℝ) - 120) * (100 - 120) + (100 - 100) * (100 - 100) = 20 ^ 2 by
      norm_num]
    exact Real.sqrt_sq (by norm_num)
  exact (no_collision_untouched
    { (Ball.new 100 100 1 BallType.SOLID 0 0 : Ball ℝ) with velocity := ⟨-5, 0⟩ }
    (Ball.new 120 100 2 BallType.SOLID 0 0)
    (by
      rw [Bool.eq_false_iff, ne_eq, checkCollision_true_iff, hd]
      norm_num [Ball.new, Vector2D.dot, Vector2D.sub])).1

end NoCollision

section Conservation

/-- C23: `checkCollision` leaves the sum of the two velocities and the sum of
the two positions unchanged, whether or not a collision is resolved. -/
theorem collision_conserves (b o : Ball ℝ) :
    (b.checkCollision Real.sqrt o).2.1.velocity.add (b.checkCollision Real.sqrt o).2.2.velocity
      = b.velocity.add o.velocity ∧
    (b.checkCollision Real.sqrt o).2.1.position.add (b.checkCollision Real.sqrt o).2.2.position
      = b.position.add o.position := by
  by_cases h : b.isPocketed = false ∧ o.isPocketed = false ∧
      0.1 < (b.position.sub o.position).length Real.sqrt ∧
      (b.position.sub o.position).length Real.sqrt < 25.2 ∧
      (b.velocity.sub o.velocity).dot ((b.position.sub o.position).normalize Real.sqrt)
        ≤ -0.1
  · rw [checkCollision_hit b o h.1 h.2.1 h.2.2.1 h.2.2.2.1 h.2.2.2.2]
    constructor
    · simp only [Vector2D.add, Vector2D.sub, Vector2D.mul, Vector2D.mk.injEq]
      constructor <;> ring
    · split_ifs
      · simp only [Vector2D.add, Vector2D.sub, Vector2D.mul, Vector2D.mk.injEq]
        constructor <;> ring
      · rfl
  · rw [checkCollision_miss b o h]
    exact ⟨rfl, rfl⟩

end Conservation

section PlayerFlags

variable {K : Type} [LinearOrderedField K]

theorem updateBalls_flags (sqrt : K → K) (pow : K → K → K) (dt : K) (g : Game K)
    (h : PlayerFlagsTrack g) : PlayerFlagsTrack (updateBalls sqrt pow dt g) := by
  unfold PlayerFlagsTrack at h ⊢
  unfold updateBalls
  dsimp only
  generalize ballLoop sqrt pow dt g.pockets g.shotInProgress g.balls
    g.pocketOccurredThisShot = s
  revert h
  cases g.shotInProgress <;> cases anyMovingOrAnimating sqrt (rebuild s.1) <;>
    cases s.2 <;> cases g.gameState <;> simp

theorem handleLButtonUp_flags (sqrt : K → K) (g g' : Game K) (h : PlayerFlagsTrack g)
    (hl : handleLButtonUp sqrt g = some g') : PlayerFlagsTrack g' := by
  unfold handleLButtonUp at hl
  split_ifs at hl with h1
  · cases hb : g.balls with
    | nil => rw [hb] at hl; simp at hl
    | cons cue rest =>
      rw [hb] at hl
      dsimp only at hl
      split_ifs at hl with h2
      · cases hl
        exact h
      · cases hl
        exact h
  · cases hl
    exact h

/-- C25: the player-flag predicate (the two `isCurrentPlayer` flags are never
equal, and in `PLAYER1_TURN`, resp. `PLAYER2_TURN`, it is player 1's, resp.
player 2's, flag that is true) holds after `initGame` and is preserved by every
`updateBalls(dt)`, by `checkCollisions()` and by the launch branch of
`handleInput`. -/
theorem player_flags_track (sqrt : K → K) (pow : K → K → K) :
    (∀ a : Vector2D K, PlayerFlagsTrack (initGame a)) ∧
    (∀ (dt : K) (g : Game K), PlayerFlagsTrack g →
      PlayerFlagsTrack (updateBalls sqrt pow dt g)) ∧
    (∀ g : Game K, PlayerFlagsTrack g → PlayerFlagsTrack (checkCollisions sqrt g)) ∧
    (∀ g g' : Game K, PlayerFlagsTrack g → handleLButtonUp sqrt g = some g' →
      PlayerFlagsTrack g') := by
  refine ⟨?_, ?_, ?_, ?_⟩
  · intro a
    simp [PlayerFlagsTrack, initGame]
  · intro dt g h
    exact updateBalls_flags sqrt pow dt g h
  · intro g h
    exact h
  · intro g g' h hl
    exact handleLButtonUp_flags sqrt g g' h hl

/-- The initial game stepped once. -/
theorem player_flags_track_witness :
    PlayerFlagsTrack
      (checkCollisions (fun x : ℚ => x)
        (updateBalls (fun x : ℚ => x) (fun x _ => x) (1 / 60)
          (initGame (⟨1, 0⟩ : Vector2D ℚ)))) :=
  (player_flags_track (fun x : ℚ => x) (fun x _ => x)).2.2.1 _
    ((player_flags_track (fun x : ℚ => x) (fun x _ => x)).2.1 (1 / 60) _
      ((player_flags_track (fun x : ℚ => x) (fun x _ => x)).1 ⟨1, 0⟩))

end PlayerFlags

section Rack

theorem initBalls_positions :
    (initBalls ℝ).map (fun b => b.position)
      = [⟨82, 300⟩, ⟨16558 / 25, 300⟩, ⟨17156 / 25, 287⟩, ⟨17156 / 25, 313⟩, ⟨17754 / 25, 274⟩,
          ⟨17754 / 25, 300⟩, ⟨17754 / 25, 326⟩, ⟨18352 / 25, 261⟩, ⟨18352 / 25, 287⟩,
          ⟨18352 / 25, 313⟩, ⟨18352 / 25, 339⟩, ⟨758, 248⟩, ⟨758, 274⟩, ⟨758, 300⟩, ⟨758, 326⟩,
          ⟨758, 352⟩] := by
  simp only [initBalls, initBallsRows, initBallsRow, List.range, List.range.loop, Ball.new,
    cueBall, CUSHION_WIDTH, BALL_RADIUS, TABLE_HEIGHT, TABLE_WIDTH]
  norm_num

theorem initBalls_rest :
    ∀ b ∈ initBalls ℝ, b.velocity = ⟨0, 0⟩ ∧ b.isPocketed = false ∧ b.toRemove = false := by
  simp [initBalls, initBallsRows, initBallsRow, List.range, List.range.loop, Ball.new, cueBall]

end Rack
section Stable

theorem pocketLoop_no_capture (sip : Bool) (ps : List (Pocket ℝ)) (b : Ball ℝ) (occ : Bool)
    (h : ∀ p ∈ ps, ¬ (b.position.sub p.position).length Real.sqrt < p.radius) :
    pocketLoop Real.sqrt sip ps (b, occ) = (b, occ) := by
  induction ps with
  | nil => rfl
  | cons p ps ih =>
    have hp : p.checkPocket Real.sqrt b = (false, b) := by
      unfold Pocket.checkPocket
      simp [h p (List.mem_cons_self _ _)]
    simp only [pocketLoop, hp, Bool.false_eq_true, if_false]
    rw [ih (fun q hq => h q (List.mem_cons_of_mem _ hq))]
    simp

theorem update_rest (pow : ℝ → ℝ → ℝ) (dt : ℝ) (b : Ball ℝ) (hb : b.isPocketed = false)
    (hv : b.velocity = ⟨0, 0⟩)
    (hx : 0 ≤ b.position.x ∧ b.position.x ≤ 800) (hy : 0 ≤ b.position.y ∧ b.position.y ≤ 600) :
    b.update Real.sqrt pow dt = b := by
  have hvel : (b.update Real.sqrt pow dt).velocity = ⟨0, 0⟩ := by
    rw [update_velocity, hv]
    simp [hb, Vector2D.mul]
  rw [update_unpocketed Real.sqrt pow dt b hb, hvel]
  have e1 : min (800 : ℝ) (max 0 (b.position.x + 0 * dt)) = b.position.x := by
    rw [zero_mul, add_zero, max_eq_right hx.1, min_eq_right hx.2]
  have e2 : min (600 : ℝ) (max 0 (b.position.y + 0 * dt)) = b.position.y := by
    rw [zero_mul, add_zero, max_eq_right hy.1, min_eq_right hy.2]
  simp only [e1, e2]
  rw [← hv]

theorem checkBoundaryCollision_inside (b : Ball ℝ)
    (hx : 42 ≤ b.position.x ∧ b.position.x ≤ 758)
    (hy : 42 ≤ b.position.y ∧ b.position.y ≤ 558) :
    b.checkBoundaryCollision Real.sqrt = b := by
  have h1 : ¬ b.position.x - ((BALL_RADIUS : ℤ) : ℝ) < ((CUSHION_WIDTH : ℤ) : ℝ) := by
    simp only [BALL_RADIUS, CUSHION_WIDTH]
    norm_num
    linarith [hx.1]
  have h2 : ¬ b.position.x + ((BALL_RADIUS : ℤ) : ℝ) > ((TABLE_WIDTH - CUSHION_WIDTH : ℤ) : ℝ) := by
    simp only [BALL_RADIUS, CUSHION_WIDTH, TABLE_WIDTH]
    norm_num
    linarith [hx.2]
  have h3 : ¬ b.position.y - ((BALL_RADIUS : ℤ) : ℝ) < ((CUSHION_WIDTH : ℤ) : ℝ) := by
    simp only [BALL_RADIUS, CUSHION_WIDTH]
    norm_num
    linarith [hy.1]
  have h4 : ¬ b.position.y + ((BALL_RADIUS : ℤ) : ℝ) > ((TABLE_HEIGHT - CUSHION_WIDTH : ℤ) : ℝ) := by
    simp only [BALL_RADIUS, CUSHION_WIDTH, TABLE_HEIGHT]
    norm_num
    linarith [hy.2]
  unfold Ball.checkBoundaryCollision
  dsimp only
  simp only [h1, h2, h3, h4, if_false]
  split_ifs <;> rfl

theorem ballLoop_stable (pow : ℝ → ℝ → ℝ) (dt : ℝ) (ps : List (Pocket ℝ)) (sip : Bool)
    (balls : List (Ball ℝ)) (occ : Bool)
    (hrest : ∀ b ∈ balls, b.velocity = ⟨0, 0⟩ ∧ b.isPocketed = false)
    (hcap : ∀ b ∈ balls, ∀ p ∈ ps,
      ¬ (b.position.sub p.position).length Real.sqrt < p.radius)
    (hin : ∀ b ∈ balls, (42 ≤ b.position.x ∧ b.position.x ≤ 758) ∧
      (42 ≤ b.position.y ∧ b.position.y ≤ 558)) :
    ballLoop Real.sqrt pow dt ps sip balls occ = (balls, occ) := by
  induction balls with
  | nil => rfl
  | cons b rest ih =>
    have hb := hrest b (List.mem_cons_self _ _)
    have hi := hin b (List.mem_cons_self _ _)
    simp only [ballLoop]
    rw [pocketLoop_no_capture sip ps b occ (hcap b (List.mem_cons_self _ _))]
    dsimp only
    rw [update_rest pow dt b hb.2 hb.1 ⟨by linarith [hi.1.1], by linarith [hi.1.2]⟩
        ⟨by linarith [hi.2.1], by linarith [hi.2.2]⟩,
      checkBoundaryCollision_inside b hi.1 hi.2,
      ih (fun x hx => hrest x (List.mem_cons_of_mem _ hx))
        (fun x hx => hcap x (List.mem_cons_of_mem _ hx))
        (fun x hx => hin x (List.mem_cons_of_mem _ hx))]

theorem rebuild_stable (l : List (Ball ℝ)) (hl : CueInvariant l)
    (hr : ∀ b ∈ l, b.toRemove = false) : rebuild l = l := by
  cases l with
  | nil => exact hl.elim
  | cons c rest =>
    rw [rebuild_cons_of_invariant c rest hl.1 hl.2, hr c (List.mem_cons_self _ _)]
    have : rest.filter (fun b => !b.toRemove) = rest := by
      rw [List.filter_eq_self]
      intro b hb
      simp [hr b (List.mem_cons_of_mem _ hb)]
    rw [this]
    rfl

theorem checkCollision_far (b o : Ball ℝ)
    (h : 25.2 < (b.position.sub o.position).length Real.sqrt) :
    b.checkCollision Real.sqrt o = (false, b, o) :=
  checkCollision_miss b o (fun hc => absurd hc.2.2.2.1 (not_lt.2 (le_of_lt h)))

theorem collideWith_far (b : Ball ℝ) (l : List (Ball ℝ))
    (h : ∀ o ∈ l, 25.2 < (b.position.sub o.position).length Real.sqrt) :
    collideWith Real.sqrt b l = (b, l) := by
  induction l with
  | nil => rfl
  | cons o rest ih =>
    simp only [collideWith]
    rw [checkCollision_far b o (h o (List.mem_cons_self _ _))]
    dsimp only
    rw [ih (fun x hx => h x (List.mem_cons_of_mem _ hx))]
    split_ifs <;> rfl

theorem checkCollisionsLoop_far (n : Nat) :
    ∀ l : List (Ball ℝ),
      l.Pairwise (fun b o => 25.2 < (b.position.sub o.position).length Real.sqrt) →
      checkCollisionsLoop Real.sqrt n l = l := by
  induction n with
  | zero => intro l _; rfl
  | succ n ih =>
    intro l hl
    cases l with
    | nil => rfl
    | cons b rest =>
      rw [List.pairwise_cons] at hl
      simp only [checkCollisionsLoop]
      rw [collideWith_far b rest hl.1]
      dsimp only
      rw [ih rest hl.2]
      split_ifs <;> rfl

end Stable
section RackFacts

theorem initBalls_far :
    (initBalls ℝ).Pairwise
      (fun b o => 25.2 < (b.position.sub o.position).length Real.sqrt) := by
  have h : ((initBalls ℝ).map (fun b => b.position)).Pairwise
      (fun p q => 25.2 < (p.sub q).length Real.sqrt) := by
    rw [initBalls_positions]
    simp only [List.pairwise_cons, List.mem_cons, forall_eq_or_imp, List.mem_singleton,
      forall_eq, List.not_mem_nil, false_implies, implies_true, List.Pairwise.nil, and_true]
    norm_num [Vector2D.sub, lt_length_iff]
  exact List.pairwise_map.1 h

theorem initBalls_inside :
    ∀ b ∈ initBalls ℝ, (42 ≤ b.position.x ∧ b.position.x ≤ 758) ∧
      (42 ≤ b.position.y ∧ b.position.y ≤ 558) := by
  have h : ∀ q ∈ (initBalls ℝ).map (fun b => b.position),
      (42 ≤ q.x ∧ q.x ≤ 758) ∧ (42 ≤ q.y ∧ q.y ≤ 558) := by
    rw [initBalls_positions]
    simp only [List.mem_cons, forall_eq_or_imp, List.mem_singleton, forall_eq,
      List.not_mem_nil, false_implies, implies_true, and_true]
    norm_num
  intro b hb
  exact h b.position (List.mem_map_of_mem _ hb)

theorem initBalls_not_captured :
    ∀ b ∈ initBalls ℝ, ∀ p ∈ initPockets ℝ,
      ¬ (b.position.sub p.position).length Real.sqrt < p.radius := by
  have h : ∀ q ∈ (initBalls ℝ).map (fun b => b.position), ∀ p ∈ initPockets ℝ,
      ¬ (q.sub p.position).length Real.sqrt < p.radius := by
    rw [initBalls_positions]
    simp only [List.mem_cons, forall_eq_or_imp, List.mem_singleton, forall_eq,
      List.not_mem_nil, false_implies, implies_true, and_true, initPockets, Pocket.new,
      CUSHION_WIDTH, TABLE_WIDTH, TABLE_HEIGHT, POCKET_RADIUS]
    norm_num [Vector2D.sub, length_lt_iff]
  intro b hb
  exact h b.position (List.mem_map_of_mem _ hb)

end RackFacts
section RackStable

theorem step_stable (pow : ℝ → ℝ → ℝ) (dt : ℝ) (g : Game ℝ)
    (hsip : g.shotInProgress = false) (hcue : CueInvariant g.balls)
    (hrest : ∀ b ∈ g.balls, b.velocity = ⟨0, 0⟩ ∧ b.isPocketed = false ∧ b.toRemove = false)
    (hcap : ∀ b ∈ g.balls, ∀ p ∈ g.pockets,
      ¬ (b.position.sub p.position).length Real.sqrt < p.radius)
    (hin : ∀ b ∈ g.balls, (42 ≤ b.position.x ∧ b.position.x ≤ 758) ∧
      (42 ≤ b.position.y ∧ b.position.y ≤ 558))
    (hfar : g.balls.Pairwise
      (fun b o => 25.2 < (b.position.sub o.position).length Real.sqrt)) :
    checkCollisions Real.sqrt (updateBalls Real.sqrt pow dt g) = g := by
  have hloop := ballLoop_stable pow dt g.pockets g.shotInProgress g.balls
    g.pocketOccurredThisShot (fun b hb => ⟨(hrest b hb).1, (hrest b hb).2.1⟩) hcap hin
  have hupd : updateBalls Real.sqrt pow dt g = g := by
    unfold updateBalls
    dsimp only
    rw [hloop, rebuild_stable g.balls hcue (fun b hb => (hrest b hb).2.2)]
    simp only [hsip, Bool.false_eq_true, if_false]
    clear hloop hfar hin hcap hrest hcue
    cases g
    simp only at hsip
    subst hsip
    rfl
  rw [hupd]
  unfold checkCollisions
  rw [checkCollisionsLoop_far _ _ hfar]

/-- C24: in the state produced by `initGame` there are 16 balls, every pair of
them is farther apart than 25.2, no ball is within capture radius of a pocket,
every ball lies within the cushion bounds and is at rest, unpocketed and not
flagged; and for every `dt`, `updateBalls(dt)` followed by `checkCollisions()`
returns the very same state: every ball unchanged, 16 balls numbered 0..15 in
order, and `gameState = PLAYER1_TURN`. -/
theorem initial_rack_stable (dt : ℝ) (a : Vector2D ℝ) :
    (initGame a : Game ℝ).balls.length = 16 ∧
    (initGame a : Game ℝ).balls.Pairwise
      (fun b o => 25.2 < (b.position.sub o.position).length Real.sqrt) ∧
    (∀ b ∈ (initGame a : Game ℝ).balls, ∀ p ∈ (initGame a : Game ℝ).pockets,
      ¬ (b.position.sub p.position).length Real.sqrt < p.radius) ∧
    (∀ b ∈ (initGame a : Game ℝ).balls, (42 ≤ b.position.x ∧ b.position.x ≤ 758) ∧
      (42 ≤ b.position.y ∧ b.position.y ≤ 558)) ∧
    (∀ b ∈ (initGame a : Game ℝ).balls,
      b.velocity = ⟨0, 0⟩ ∧ b.isPocketed = false ∧ b.toRemove = false) ∧
    checkCollisions Real.sqrt (updateBalls Real.sqrt Real.rpow dt (initGame a)) = initGame a ∧
    (checkCollisions Real.sqrt (updateBalls Real.sqrt Real.rpow dt (initGame a))).balls.map
        (fun b => b.number)
      = [0, 1, 2, 3, 4, 5, 6, 7, 8, 9, 10, 11, 12, 13, 14, 15] ∧
    (checkCollisions Real.sqrt (updateBalls Real.sqrt Real.rpow dt (initGame a))).gameState
      = GameState.PLAYER1_TURN := by
  have hcue : CueInvariant (initGame a : Game ℝ).balls := by
    have hn := initBalls_numbers (K := ℝ)
    show CueInvariant (initBalls ℝ)
    cases hb : initBalls ℝ with
    | nil => rw [hb] at hn; simp at hn
    | cons c rest =>
      rw [hb] at hn
      simp only [List.map_cons, List.cons.injEq] at hn
      refine ⟨hn.1, ?_⟩
      intro b hb'
      have hm : b.number ∈ rest.map (fun x => x.number) := List.mem_map_of_mem _ hb'
      rw [hn.2] at hm
      intro h0
      rw [h0] at hm
      simp at hm
  have hstable := step_stable Real.rpow dt (initGame a) rfl hcue initBalls_rest
    initBalls_not_captured initBalls_inside initBalls_far
  have hlen : (initBalls ℝ).length = 16 := by
    have := congrArg List.length (initBalls_numbers (K := ℝ))
    simpa using this
  refine ⟨hlen, initBalls_far, initBalls_not_captured, initBalls_inside, initBalls_rest,
    hstable, ?_, ?_⟩
  · rw [hstable]
    exact initBalls_numbers
  · rw [hstable]
    rfl

end RackStable

section RackWitness

/-- The initial game stepped by one frame of 1/60 s. -/
theorem initial_rack_stable_witness :
    (checkCollisions Real.sqrt
        (updateBalls Real.sqrt Real.rpow (1 / 60) (initGame ⟨1, 0⟩))).gameState
      = GameState.PLAYER1_TURN :=
  (initial_rack_stable (1 / 60) ⟨1, 0⟩).2.2.2.2.2.2.2

end RackWitness

section DegenerateAim

theorem checkBoundaryCollision_isPocketed (b : Ball ℝ) :
    (b.checkBoundaryCollision Real.sqrt).isPocketed = b.isPocketed := by
  unfold Ball.checkBoundaryCollision
  dsimp only
  split_ifs <;> rfl

theorem checkBoundaryCollision_rest (b : Ball ℝ) (hv : b.velocity = ⟨0, 0⟩) :
    (b.checkBoundaryCollision Real.sqrt).velocity = ⟨0, 0⟩ := by
  have h := checkBoundaryCollision_velocity_sq b
  rw [hv] at h
  simp only [mul_zero] at h
  have hx : (b.checkBoundaryCollision Real.sqrt).velocity.x = 0 :=
    mul_self_eq_zero.1 (le_antisymm h.1 (mul_self_nonneg _))
  have hy : (b.checkBoundaryCollision Real.sqrt).velocity.y = 0 :=
    mul_self_eq_zero.1 (le_antisymm h.2 (mul_self_nonneg _))
  cases hb : (b.checkBoundaryCollision Real.sqrt).velocity with
  | mk x y =>
    rw [hb] at hx hy
    simp only at hx hy
    rw [hx, hy]

theorem update_rest_velocity (pow : ℝ → ℝ → ℝ) (dt : ℝ) (b : Ball ℝ)
    (hv : b.velocity = ⟨0, 0⟩) : (b.update Real.sqrt pow dt).velocity = ⟨0, 0⟩ := by
  rw [update_velocity, hv]
  split_ifs
  · rfl
  · rfl
  · simp [Vector2D.mul]

theorem ballLoop_rest (pow : ℝ → ℝ → ℝ) (dt : ℝ) (ps : List (Pocket ℝ)) (sip : Bool)
    (balls : List (Ball ℝ)) (occ : Bool)
    (hrest : ∀ b ∈ balls, b.velocity = ⟨0, 0⟩ ∧ b.isPocketed = false)
    (hcap : ∀ b ∈ balls, ∀ p ∈ ps,
      ¬ (b.position.sub p.position).length Real.sqrt < p.radius) :
    (ballLoop Real.sqrt pow dt ps sip balls occ).2 = occ ∧
    ∀ b ∈ (ballLoop Real.sqrt pow dt ps sip balls occ).1,
      b.velocity = ⟨0, 0⟩ ∧ b.isPocketed = false := by
  induction balls generalizing occ with
  | nil => exact ⟨rfl, fun b hb => by simp [ballLoop] at hb⟩
  | cons b rest ih =>
    have hb := hrest b (List.mem_cons_self _ _)
    have ih' := ih occ (fun x hx => hrest x (List.mem_cons_of_mem _ hx))
      (fun x hx => hcap x (List.mem_cons_of_mem _ hx))
    simp only [ballLoop]
    rw [pocketLoop_no_capture sip ps b occ (hcap b (List.mem_cons_self _ _))]
    dsimp only
    refine ⟨ih'.1, ?_⟩
    intro x hx
    rcases List.mem_cons.1 hx with e | e
    · rw [e]
      refine ⟨checkBoundaryCollision_rest _ (update_rest_velocity pow dt b hb.1), ?_⟩
      rw [checkBoundaryCollision_isPocketed, update_isPocketed]
      exact hb.2
    · exact ih'.2 x e

theorem mem_rebuild (l : List (Ball ℝ)) :
    ∀ b ∈ rebuild l, b = cueBall ℝ ∨ b ∈ l := by
  intro b hb
  rw [rebuild_eq] at hb
  split_ifs at hb
  · rcases List.mem_cons.1 hb with e | e
    · exact Or.inl e
    · exact Or.inr (List.mem_of_mem_filter e)
  · exact Or.inr (List.mem_of_mem_filter hb)

theorem anyMovingOrAnimating_rest (l : List (Ball ℝ))
    (h : ∀ b ∈ l, b.velocity = ⟨0, 0⟩ ∧ b.isPocketed = false) :
    anyMovingOrAnimating Real.sqrt l = false := by
  rw [anyMovingOrAnimating_eq_false]
  intro b hb
  obtain ⟨hv, hp⟩ := h b hb
  refine ⟨?_, ?_⟩
  · rw [hv]
    simp [Vector2D.length]
    norm_num
  · intro hc
    rw [hp] at hc
    cases hc

theorem launchCue_degenerate (a : Vector2D ℝ) (p : ℝ) (cue : Ball ℝ)
    (ha : a.length Real.sqrt ≤ 0.1) :
    (launchCue Real.sqrt a p cue).velocity = ⟨0, 0⟩ := by
  rw [launchCue_velocity, normalize_of_le a ha]
  have hz : (((⟨0, 0⟩ : Vector2D ℝ).mul p).mul 200) = ⟨0, 0⟩ := by
    simp [Vector2D.mul]
  rw [hz]
  have hl : ¬ (5000 : ℝ) < (⟨0, 0⟩ : Vector2D ℝ).length Real.sqrt := by
    simp [Vector2D.length]
  rw [if_neg hl]

end DegenerateAim
section DegenerateAimClaim

theorem updateBalls_rest (dt : ℝ) (g : Game ℝ) (hsip : g.shotInProgress = true)
    (hocc : g.pocketOccurredThisShot = false)
    (hrest : ∀ b ∈ g.balls, b.velocity = ⟨0, 0⟩ ∧ b.isPocketed = false)
    (hcap : ∀ b ∈ g.balls, ∀ p ∈ g.pockets,
      ¬ (b.position.sub p.position).length Real.sqrt < p.radius) :
    (g.gameState = GameState.PLAYER1_TURN →
      (updateBalls Real.sqrt Real.rpow dt g).gameState = GameState.PLAYER2_TURN) ∧
    (updateBalls Real.sqrt Real.rpow dt g).shotInProgress = false ∧
    (∀ b ∈ (updateBalls Real.sqrt Real.rpow dt g).balls, b.velocity = ⟨0, 0⟩) := by
  obtain ⟨hflag, hstep⟩ := ballLoop_rest Real.rpow dt g.pockets g.shotInProgress g.balls
    g.pocketOccurredThisShot hrest hcap
  have hreb : ∀ b ∈ rebuild (ballLoop Real.sqrt Real.rpow dt g.pockets g.shotInProgress g.balls
      g.pocketOccurredThisShot).1, b.velocity = ⟨0, 0⟩ ∧ b.isPocketed = false := by
    intro b hb
    rcases mem_rebuild _ b hb with e | e
    · rw [e]
      exact ⟨rfl, rfl⟩
    · exact hstep b e
  have hany := anyMovingOrAnimating_rest _ hreb
  refine ⟨?_, ?_, ?_⟩
  · intro hturn
    unfold updateBalls
    dsimp only
    rw [hany, hflag, hocc]
    simp [hsip, hturn]
  · unfold updateBalls
    dsimp only
    rw [hany, hflag, hocc]
    simp [hsip]
  · rw [updateBalls_balls]
    intro b hb
    exact (hreb b hb).1

/-- C26 as amended: for every aim vector of length at most 0.1 and every power
`p > 0`, the launch sets the cue ball's velocity to exactly (0, 0) and still sets
`shotInProgress = true`; consequently, in a state where all balls are at rest
and unpocketed, no ball is within capture radius of a pocket and `gameState` is
`PLAYER1_TURN`, the next `updateBalls(dt)` ends the shot and sets `gameState` to
`PLAYER2_TURN` while every ball's velocity is still (0, 0); if moreover the
collection satisfies the cue-ball predicate and every ball is unflagged and
within the cushion bounds, the collection itself is unchanged. -/
theorem degenerate_aim_forfeits (g : Game ℝ) (cue : Ball ℝ) (rest : List (Ball ℝ)) (dt : ℝ)
    (hballs : g.balls = cue :: rest) (haim : g.aiming = true) (hp : 0 < g.shotPower)
    (ha : g.aimDirection.length Real.sqrt ≤ 0.1)
    (hturn : g.gameState = GameState.PLAYER1_TURN)
    (hrest : ∀ b ∈ g.balls, b.velocity = ⟨0, 0⟩ ∧ b.isPocketed = false)
    (hcap : ∀ b ∈ g.balls, ∀ p ∈ g.pockets,
      ¬ (b.position.sub p.position).length Real.sqrt < p.radius) :
    (∀ c : Ball ℝ, (launchCue Real.sqrt g.aimDirection g.shotPower c).velocity = ⟨0, 0⟩) ∧
    ∃ g' : Game ℝ, handleLButtonUp Real.sqrt g = some g' ∧
      g'.balls = g.balls ∧ g'.shotInProgress = true ∧ g'.pocketOccurredThisShot = false ∧
      g'.gameState = GameState.PLAYER1_TURN ∧
      (updateBalls Real.sqrt Real.rpow dt g').gameState = GameState.PLAYER2_TURN ∧
      (updateBalls Real.sqrt Real.rpow dt g').shotInProgress = false ∧
      (∀ b ∈ (updateBalls Real.sqrt Real.rpow dt g').balls, b.velocity = ⟨0, 0⟩) ∧
      ((CueInvariant g.balls ∧
          ∀ b ∈ g.balls, b.toRemove = false ∧ (42 ≤ b.position.x ∧ b.position.x ≤ 758) ∧
            (42 ≤ b.position.y ∧ b.position.y ≤ 558)) →
        (updateBalls Real.sqrt Real.rpow dt g').balls = g.balls) := by
  have hcue := hrest cue (by rw [hballs]; exact List.mem_cons_self _ _)
  have hlaunch : launchCue Real.sqrt g.aimDirection g.shotPower cue = cue := by
    have hv := launchCue_degenerate g.aimDirection g.shotPower cue ha
    have e : launchCue Real.sqrt g.aimDirection g.shotPower cue
        = { cue with velocity := (launchCue Real.sqrt g.aimDirection g.shotPower cue).velocity } :=
      rfl
    rw [e, hv, ← hcue.1]
  have hlen : cue.velocity.length Real.sqrt < 0.1 := by
    rw [hcue.1]
    simp [Vector2D.length]
    norm_num
  refine ⟨fun c => launchCue_degenerate _ _ c ha, ?_⟩
  refine ⟨{ g with
      balls := launchCue Real.sqrt g.aimDirection g.shotPower cue :: rest
      aiming := false
      shotPower := 0
      shotInProgress := true
      pocketOccurredThisShot := false }, ?_, ?_, rfl, rfl, hturn, ?_⟩
  · simp [handleLButtonUp, hballs, haim, hp, hcue.2, hlen]
  · show launchCue Real.sqrt g.aimDirection g.shotPower cue :: rest = g.balls
    rw [hlaunch, hballs]
  · rw [hlaunch, ← hballs]
    have h := updateBalls_rest dt
      { g with
        balls := g.balls
        aiming := false
        shotPower := 0
        shotInProgress := true
        pocketOccurredThisShot := false } rfl rfl hrest hcap
    refine ⟨h.1 hturn, h.2.1, h.2.2, ?_⟩
    rintro ⟨hinv, hin⟩
    rw [updateBalls_balls]
    have hloop := ballLoop_stable Real.rpow dt g.pockets true g.balls false hrest hcap
      (fun b hb => (hin b hb).2)
    show rebuild (ballLoop Real.sqrt Real.rpow dt g.pockets true g.balls false).1 = g.balls
    rw [hloop]
    exact rebuild_stable g.balls hinv (fun b hb => (hin b hb).1)

end DegenerateAimClaim
section DegenerateAimExamples

theorem le_length_iff (v : Vector2D ℝ) {c : ℝ} (hc : 0 < c) :
    c ≤ v.length Real.sqrt ↔ c ^ 2 ≤ v.x * v.x + v.y * v.y := by
  rw [← not_lt, length_lt_iff v hc, not_lt]

/-- The lone cue ball at its spawn position, aim vector (0, 0), power 10. -/
theorem degenerate_aim_forfeits_witness :
    ∃ g' : Game ℝ,
      handleLButtonUp Real.sqrt
          { initGame (⟨0, 0⟩ : Vector2D ℝ) with
            aiming := true, shotPower := 10, balls := [cueBall ℝ] } = some g' ∧
        (updateBalls Real.sqrt Real.rpow (1 / 60) g').gameState = GameState.PLAYER2_TURN := by
  obtain ⟨g', h1, _, _, _, _, h2, _⟩ := (degenerate_aim_forfeits
    { initGame (⟨0, 0⟩ : Vector2D ℝ) with
      aiming := true, shotPower := 10, balls := [cueBall ℝ] }
    (cueBall ℝ) [] (1 / 60) rfl rfl (by norm_num)
    (by
      show (⟨0, 0⟩ : Vector2D ℝ).length Real.sqrt ≤ 0.1
      simp [Vector2D.length]
      norm_num)
    rfl
    (by
      intro b hb
      simp only [List.mem_singleton] at hb
      rw [hb]
      exact ⟨rfl, rfl⟩)
    (by
      intro b hb
      simp only [List.mem_singleton] at hb
      rw [hb]
      norm_num [initGame, initPockets, Pocket.new, cueBall, Ball.new, Vector2D.sub,
        length_lt_iff, le_length_iff, CUSHION_WIDTH, BALL_RADIUS, TABLE_HEIGHT, TABLE_WIDTH,
        POCKET_RADIUS])).2
  exact ⟨g', h1, h2⟩

/-- C26 as stated fails: the cue ball at its spawn position and ball 1 at rest
and unpocketed at (15, 15), the centre of a pocket of `initPockets`, with
`gameState = PLAYER1_TURN`, aim vector (0, 0) and power 10.  The launch fires
and leaves both balls at rest, but in the next `updateBalls(1/60)` ball 1 is
captured, so the shot does not end and `gameState` stays `PLAYER1_TURN`. -/
theorem degenerate_aim_counterexample :
    handleLButtonUp Real.sqrt
        { initGame (⟨0, 0⟩ : Vector2D ℝ) with
          aiming := true, shotPower := 10
          balls := [cueBall ℝ, Ball.new 15 15 1 BallType.SOLID 0 0] }
      = some
        { initGame (⟨0, 0⟩ : Vector2D ℝ) with
          aiming := false, shotPower := 0, shotInProgress := true
          balls := [cueBall ℝ, Ball.new 15 15 1 BallType.SOLID 0 0] } ∧
    (updateBalls Real.sqrt Real.rpow (1 / 60)
        { initGame (⟨0, 0⟩ : Vector2D ℝ) with
          aiming := false, shotPower := 0, shotInProgress := true
          balls := [cueBall ℝ, Ball.new 15 15 1 BallType.SOLID 0 0] }).gameState
      = GameState.PLAYER1_TURN ∧
    (updateBalls Real.sqrt Real.rpow (1 / 60)
        { initGame (⟨0, 0⟩ : Vector2D ℝ) with
          aiming := false, shotPower := 0, shotInProgress := true
          balls := [cueBall ℝ, Ball.new 15 15 1 BallType.SOLID 0 0] }).shotInProgress
      = true := by
  have hl : launchCue Real.sqrt (⟨0, 0⟩ : Vector2D ℝ) 10 (cueBall ℝ) = cueBall ℝ := by
    have hv := launchCue_degenerate (⟨0, 0⟩ : Vector2D ℝ) 10 (cueBall ℝ) (by
      simp [Vector2D.length]
      norm_num)
    have e : launchCue Real.sqrt (⟨0, 0⟩ : Vector2D ℝ) 10 (cueBall ℝ)
        = { cueBall ℝ with
            velocity := (launchCue Real.sqrt (⟨0, 0⟩ : Vector2D ℝ) 10 (cueBall ℝ)).velocity } :=
      rfl
    rw [e, hv]
    rfl
  have hloop : ballLoop Real.sqrt Real.rpow (1 / 60) (initPockets ℝ) true
        [cueBall ℝ, Ball.new 15 15 1 BallType.SOLID 0 0] false
      = ([cueBall ℝ,
          { (Ball.new 15 15 1 BallType.SOLID 0 0 : Ball ℝ) with
            isPocketed := true, pocketPosition := ⟨15, 15⟩, pocketTimer := 1 / 60 }],
          true) := by
    norm_num [ballLoop, pocketLoop, initPockets, Pocket.new, Pocket.checkPocket,
      cueBall, Ball.new, Vector2D.sub, Ball.update, Ball.checkBoundaryCollision,
      isOverPocketArea, computePocketCenters, Vector2D.mul, Vector2D.add,
      CUSHION_WIDTH, BALL_RADIUS, TABLE_HEIGHT, TABLE_WIDTH, POCKET_RADIUS,
      POCKET_INSET, FRICTION, length_lt_iff, lt_length_iff]
  refine ⟨?_, ?_, ?_⟩
  · have hlen : (cueBall ℝ).velocity.length Real.sqrt < 1 / 10 := by
      norm_num [cueBall, Ball.new, length_lt_iff]
    simp only [handleLButtonUp, initGame, Bool.true_and, gt_iff_lt]
    norm_num [hl]
    exact ⟨rfl, hlen⟩
  · simp only [updateBalls, initGame]
    rw [hloop]
    norm_num [rebuild, anyMovingOrAnimating, cueBall, Ball.new, lt_length_iff]
  · simp only [updateBalls, initGame]
    rw [hloop]
    norm_num [rebuild, anyMovingOrAnimating, cueBall, Ball.new, lt_length_iff]

end DegenerateAimExamples

end Billiards
